import Mathlib

/-!
Verification of the AVR TWI (I2C) driver in `I2CManager_AVR.h` of
CommandStation-EX: the clock configurator `I2C_setClock`, the start logic
`I2C_sendStart`, and the interrupt-driven protocol state machine
`I2C_handleInterrupt`, including the multiplexer sub-protocol compiled in
under `I2C_EXTENDED_ADDRESS`.

The embedding is a shallow one: the driver's register writes (`TWDR`,
`TWCR`) are recorded in an append-only log of `RegWrite` entries, the
interrupt handler becomes a pure step function on a machine-state record,
and a hardware event is a pair of a TWI status code and the byte the bus
delivered (the content of `TWDR` on receive events).  The constant bits
TWEN/TWINT (always set on every control write) and TWIE (a fixed
compile-time flag) are omitted from the log; the TWEA/TWSTA/TWSTO bits,
which carry all the protocol content, are recorded.
-/

namespace I2CAVR

/-! ## TWI status codes (the `#define`s at the top of the file) -/

def TWI_START : Nat := 0x08
def TWI_REP_START : Nat := 0x10
def TWI_ARB_LOST : Nat := 0x38
def TWI_MTX_ADR_ACK : Nat := 0x18
def TWI_MTX_ADR_NACK : Nat := 0x20
def TWI_MTX_DATA_ACK : Nat := 0x28
def TWI_MTX_DATA_NACK : Nat := 0x30
def TWI_MRX_ADR_ACK : Nat := 0x40
def TWI_MRX_ADR_NACK : Nat := 0x48
def TWI_MRX_DATA_ACK : Nat := 0x50
def TWI_MRX_DATA_NACK : Nat := 0x58
def TWI_NO_STATE : Nat := 0xF8
def TWI_BUS_ERROR : Nat := 0x00

/-! ## Data model -/

/-- The four request operations of the driver (`OPERATION_READ`,
`OPERATION_SEND`, `OPERATION_SEND_P`, `OPERATION_REQUEST`). -/
inductive Operation where
  | read
  | send
  | sendP
  | request
deriving DecidableEq, Repr

/-- Modelled from the spec: the multiplexer sub-protocol phase
(`MuxPhase_OFF`, `MuxPhase_PROLOG`, `MuxPhase_PASSTHRU`,
`MuxPhase_EPILOG`).  The enumeration itself lives in `I2CManager.h`,
which is not part of the sources; the spec gives the phase order
Off, Prolog, Passthrough, Epilog, and the driver compares phases
numerically, so the phases are given the values 0,1,2,3 in that order. -/
inductive MuxPhase where
  | off
  | prolog
  | passthru
  | epilog
deriving DecidableEq, Repr

/-- Numeric value of a phase, used for the driver's ordered comparisons
(`muxPhase > MuxPhase_OFF`, `muxPhase > MuxPhase_EPILOG`). -/
def MuxPhase.val : MuxPhase → Nat
  | .off => 0
  | .prolog => 1
  | .passthru => 2
  | .epilog => 3

/-- Modelled from the spec: driver state (`I2C_STATE_*` constants from
`I2CManager.h`, not in the sources); the spec names the states Idle,
Active, Completed. -/
inductive DriverState where
  | idle
  | active
  | completed
deriving DecidableEq, Repr

/-- Modelled from the spec: completion status values
(`I2C_STATUS_OK`, `I2C_STATUS_NEGATIVE_ACKNOWLEDGE`,
`I2C_STATUS_TRANSMIT_ERROR` from `I2CManager.h`, not in the sources). -/
inductive CompletionStatus where
  | ok
  | negativeAcknowledge
  | transmitError
deriving DecidableEq, Repr

/-- Modelled from the spec: the sub-bus selector of an extended address
(`I2CSubBus` in `I2CManager.h`, not in the sources): `None`, `All`, or
one-of-eight.  The driver turns a one-of-eight selector `i` into the
mask `1 << i`. -/
inductive I2CSubBus where
  | subBusAll
  | subBusNone
  | subBusIdx (i : Fin 8)
deriving DecidableEq, Repr

/-- A transaction descriptor (the request block `I2CRB`): the extended
address is modelled as its three components (device address, optional
multiplexer number, sub-bus selector), plus operation, buffers and
lengths.  The read buffer is caller memory, modelled as a total function
from index to byte so that out-of-range stores would be observable. -/
structure I2CRB where
  deviceAddress : Nat
  muxNumber : Option Nat
  subBus : I2CSubBus
  operation : Operation
  writeLen : Nat
  readLen : Nat
  writeBuffer : List Nat
  readBuffer : Nat → Nat

/-- One register write performed by the driver: a write of the data
register `TWDR` (value taken mod 256 — it is an 8-bit register), or a
write of the control register `TWCR` recording the TWEA, TWSTA and
TWSTO bits.  A control write with `twsta` requests a START condition,
with `twsto` a STOP condition, with both a STOP followed by a START. -/
inductive RegWrite where
  | data (val : Nat)
  | control (twea twsta twsto : Bool)
deriving DecidableEq, Repr

/-- Does a register write request a STOP condition? -/
def RegWrite.isStop : RegWrite → Bool
  | .control _ _ twsto => twsto
  | .data _ => false

/-- The driver's mutable state: `state`, `muxPhase`, the four byte
counters, `completionStatus`, the current request, the captured
`operation`, the configured multiplexer count `_muxCount`, and the log
of register writes performed so far. -/
structure MState where
  state : DriverState
  muxPhase : MuxPhase
  bytesToSend : Nat
  bytesToReceive : Nat
  txCount : Nat
  rxCount : Nat
  completionStatus : CompletionStatus
  currentRequest : I2CRB
  operation : Operation
  muxCount : Nat
  actions : List RegWrite

/-- Modelled from the spec: the fixed multiplexer base address
(`I2C_MUX_BASE_ADDRESS`, defined outside the sources).  The claims do
not depend on its numeric value. -/
def I2C_MUX_BASE_ADDRESS : Nat := 0x70

/-- Modelled from the spec: the numeric encoding of "no multiplexer"
(`I2CMux_None`, defined outside the sources); only used in the
(unreachable under the driver's invariant) case where a START arrives
in a mux phase without a mux number. -/
def muxNumberVal : Option Nat → Nat
  | some n => n
  | none => 255

/-- Append a `TWDR` write to the log. -/
def dataWrite (st : MState) (v : Nat) : MState :=
  { st with actions := st.actions ++ [.data (v % 256)] }

/-- Append a `TWCR` write to the log. -/
def controlWrite (st : MState) (twea twsta twsto : Bool) : MState :=
  { st with actions := st.actions ++ [.control twea twsta twsto] }

/-- `currentRequest->readBuffer[rxCount++] = TWDR; bytesToReceive--;`
(the store body shared by the three receive sites). -/
def storeByte (st : MState) (b : Nat) : MState :=
  { st with
    currentRequest := { st.currentRequest with
      readBuffer := Function.update st.currentRequest.readBuffer st.rxCount (b % 256) }
    rxCount := st.rxCount + 1
    bytesToReceive := st.bytesToReceive - 1 }

/-- `I2C_sendStart`: reload the byte counters from the current request,
zero the transfer counts, enter the Prolog phase when the address names
a multiplexer, and request a START (`TWCR = TWEN|TWIE|TWINT|TWEA|TWSTA`). -/
def I2C_sendStart (st : MState) : MState :=
  let st := { st with
    bytesToSend := st.currentRequest.writeLen
    bytesToReceive := st.currentRequest.readLen
    rxCount := 0
    txCount := 0 }
  let st := match st.currentRequest.muxNumber with
    | some _ => { st with muxPhase := .prolog }
    | none => { st with muxPhase := .off }
  controlWrite st true true false

/-- Modelled from the spec: `beginTransaction` (the `startTransaction`
logic of `I2CManager_NonBlocking.h`, which is not in the sources).  Per
spec §4.2 it captures the descriptor as current, takes the operation
from it, resets the completion status to its default Ok, makes the
driver Active, and issues the START via `I2C_sendStart` (source). -/
def beginTransaction (st : MState) (req : I2CRB) : MState :=
  I2C_sendStart { st with
    currentRequest := req
    operation := req.operation
    state := .active
    completionStatus := .ok }

/-- The sub-bus selection mask byte sent to the multiplexer during the
Prolog phase: the conditional
`(subBus==SubBus_All) ? 0xff : (subBus==SubBus_None) ? 0x00 : 1 << subBus`. -/
def subBusMask : I2CSubBus → Nat
  | .subBusAll => 0xff
  | .subBusNone => 0x00
  | .subBusIdx i => 1 <<< i.val

/-- The multiplexer state machine: the leading `#if I2C_EXTENDED_ADDRESS`
block of `I2C_handleInterrupt`.  `some st` models a branch that
`return`s; `none` models falling through (a `break` or an unmatched
case) to the main device dispatch. -/
def muxDispatch (st : MState) (twsr : Nat) (dataIn : Nat) : Option MState :=
  if st.muxPhase.val > MuxPhase.off.val then
    if twsr = TWI_MTX_ADR_ACK then
      if st.muxPhase = .prolog then
        -- send MUX selecter mask to follow address
        some (controlWrite (dataWrite st (subBusMask st.currentRequest.subBus))
          false false false)
      else if st.muxPhase = .epilog then
        -- disable all subbuses
        some (controlWrite (dataWrite st 0x00) false false false)
      else none
    else if twsr = TWI_MTX_DATA_ACK then
      if st.muxPhase = .passthru ∧ st.bytesToSend = 0 ∧ st.bytesToReceive = 0 then
        if st.muxCount > 1 then
          -- device transaction complete, prepare to deselect MUX
          some { controlWrite st false true true with muxPhase := .epilog }
        else
          -- only one MUX so no need to deselect it: just finish off
          some { controlWrite st false false true with
              state := .completed, muxPhase := .off }
      else if st.muxPhase = .prolog then
        if st.currentRequest.deviceAddress = 0 then
          -- mux-only request: send stop and post the request block
          some { controlWrite (dataWrite st 0xff) false false true with
              state := .completed, muxPhase := .off }
        else
          -- send stop followed by start, preparing to send device address
          some { controlWrite st false true true with muxPhase := .passthru }
      else if st.muxPhase = .epilog then
        -- send stop and allow the request block to be posted
        some { controlWrite (dataWrite st 0xff) false false true with
            state := .completed, muxPhase := .off }
      else none
    else if twsr = TWI_MRX_DATA_NACK then
      -- the data must be read before processing the MUX
      let st1 := if st.bytesToReceive > 0 then storeByte st dataIn else st
      if st1.muxPhase = .passthru ∧ st1.muxCount > 1 then
        -- prepare to transmit epilog to mux: send the stop bit and start bit
        some { controlWrite st1 false true true with muxPhase := .epilog }
      else
        -- finish up
        some { controlWrite st1 false false true with
            state := .completed, muxPhase := .off }
    else if twsr = TWI_START ∨ twsr = TWI_REP_START then
      if st.muxPhase = .prolog ∨ st.muxPhase = .epilog then
        -- send multiplexer address first: MUXaddress+Write
        let muxAddress := I2C_MUX_BASE_ADDRESS + muxNumberVal st.currentRequest.muxNumber
        some (controlWrite (dataWrite st ((muxAddress <<< 1) ||| 0)) false false false)
      else none
    else if twsr = TWI_MTX_ADR_NACK ∨ twsr = TWI_MRX_ADR_NACK ∨ twsr = TWI_MTX_DATA_NACK then
      if st.muxPhase = .passthru then
        -- data transaction was nak'd: record it but continue with mux cleardown
        some { controlWrite { st with completionStatus := .negativeAcknowledge }
            false true true with muxPhase := .epilog }
      else if st.muxPhase.val > MuxPhase.epilog.val then
        -- mux cleardown was nak'd: send stop and then finish
        some { controlWrite st false false true with state := .completed }
      else none
    else none
  else none

/-- The main device dispatch of `I2C_handleInterrupt` (the second
`switch (twsr)`), reached for events the multiplexer dispatch declined. -/
def mainDispatch (st : MState) (twsr : Nat) (dataIn : Nat) : MState :=
  if twsr = TWI_MTX_DATA_ACK ∨ twsr = TWI_MTX_ADR_ACK then
    if st.bytesToSend ≠ 0 then
      -- send next byte (OPERATION_SEND_P fetches the same buffer from flash)
      let b := st.currentRequest.writeBuffer.getD st.txCount 0
      controlWrite
        { dataWrite st b with
            txCount := st.txCount + 1, bytesToSend := st.bytesToSend - 1 }
        false false false
    else if st.bytesToReceive ≠ 0 then
      -- all sent, something to receive: send (repeated) start
      controlWrite st false true false
    else
      -- nothing left to send or receive: send stop
      { controlWrite st true false true with state := .completed }
  else if twsr = TWI_MRX_DATA_ACK ∨ twsr = TWI_MRX_ADR_ACK then
    -- data-ACK stores the byte, then falls through to the ACK/NACK arming
    let st1 := if twsr = TWI_MRX_DATA_ACK ∧ st.bytesToReceive > 0
      then storeByte st dataIn else st
    if st1.bytesToReceive ≤ 1 then
      -- send NACK after next reception
      controlWrite st1 false false false
    else
      -- send ack
      controlWrite st1 true false false
  else if twsr = TWI_MRX_DATA_NACK then
    let st1 := if st.bytesToReceive > 0 then storeByte st dataIn else st
    { controlWrite st1 true false true with state := .completed }
  else if twsr = TWI_START ∨ twsr = TWI_REP_START then
    -- set up address and R/W direction
    let dir : Nat :=
      if st.operation = .read ∨ (st.operation = .request ∧ st.bytesToSend = 0)
      then 1 else 0
    controlWrite
      (dataWrite st ((st.currentRequest.deviceAddress <<< 1) ||| dir))
      true false false
  else if twsr = TWI_MTX_ADR_NACK ∨ twsr = TWI_MRX_ADR_NACK ∨ twsr = TWI_MTX_DATA_NACK then
    { controlWrite st true false true with
        completionStatus := .negativeAcknowledge, state := .completed }
  else if twsr = TWI_ARB_LOST then
    -- restart transaction from start
    I2C_sendStart st
  else
    -- bus error / unrecognized code: release SDA, send stop
    { controlWrite (dataWrite st 0xff) true false true with
        completionStatus := .transmitError, state := .completed }

/-- `I2C_handleInterrupt`, for one pending hardware event: the masked
status code `twsr` plus the byte `dataIn` that the hardware left in
`TWDR` (meaningful on receive events).  The multiplexer machine has
first refusal; events it declines go to the device dispatch. -/
def I2C_handleInterrupt (st : MState) (twsr : Nat) (dataIn : Nat) : MState :=
  match muxDispatch st twsr dataIn with
  | some st1 => st1
  | none => mainDispatch st twsr dataIn

/-- Run a sequence of hardware events through the handler. -/
def runEvents (st : MState) (evts : List (Nat × Nat)) : MState :=
  evts.foldl (fun s e => I2C_handleInterrupt s e.1 e.2) st

/-- All states visited while running `evts`, the initial state included. -/
def traceStates (st : MState) : List (Nat × Nat) → List MState
  | [] => [st]
  | e :: es => st :: traceStates (I2C_handleInterrupt st e.1 e.2) es

/-- The post-`I2C_init` machine state: driver idle, counters zero,
mux machine off, empty log, a blank current request. -/
def initState (mc : Nat) : MState where
  state := .idle
  muxPhase := .off
  bytesToSend := 0
  bytesToReceive := 0
  txCount := 0
  rxCount := 0
  completionStatus := .ok
  currentRequest :=
    { deviceAddress := 0, muxNumber := none, subBus := .subBusNone,
      operation := .send, writeLen := 0, readLen := 0,
      writeBuffer := [], readBuffer := fun _ => 0 }
  operation := .send
  muxCount := mc
  actions := []

/-! ## Clock configurator -/

/-- The raw bit-rate divisor `((F_CPU / i2cClockSpeed) - 16) / 2`,
computed in 32-bit unsigned arithmetic (`unsigned long` on AVR), so the
subtraction wraps modulo `2^32` when `F_CPU / speed < 16`. -/
def rawDivisor (fcpu speed : Nat) : Nat :=
  ((fcpu / speed) + (2 ^ 32 - 16)) % 2 ^ 32 / 2

/-- `I2C_setClock`: returns the `(TWBR, prescaler)` pair the driver
programs.  The loop over `preScaler = 0..3` dividing `temp` by 4 is
unrolled; if no prescaler brings the divisor into range, the slowest
rate `(255, 3)` is programmed. -/
def I2C_setClock (fcpu speed : Nat) : Nat × Nat :=
  let temp := rawDivisor fcpu speed
  if temp ≤ 255 then (temp, 0)
  else if temp / 4 ≤ 255 then (temp / 4, 1)
  else if temp / 16 ≤ 255 then (temp / 16, 2)
  else if temp / 64 ≤ 255 then (temp / 64, 3)
  else (255, 3)

/-- The effective divisor programmed by a `(TWBR, prescaler)` pair: the
SCL frequency is `F_CPU / (16 + 2 * TWBR * 4^prescaler)`. -/
def effectiveDivisor (p : Nat × Nat) : Nat := p.1 * 4 ^ p.2

/-! ## Derived descriptions of clean-run register logs -/

/-- The register writes of a transmit loop: each byte of the payload is
written to `TWDR` and transmitted with a plain
`TWCR = TWEN|TWIE|TWINT` control write. -/
def sendLog : List Nat → List RegWrite
  | [] => []
  | b :: r => .data (b % 256) :: .control false false false :: sendLog r

/-- The control writes arming the acknowledgement of each upcoming byte
during a receive run that still has `bs.length + 1` bytes outstanding:
TWEA (ACK) while more than one byte remains, no TWEA (NACK) for the
final byte. -/
def recvArms : List Nat → List RegWrite
  | [] => []
  | _ :: r => .control (!r.isEmpty) false false :: recvArms r

/-- Store the bytes `bs` into buffer `f` at consecutive indices starting
at `i` (each reduced mod 256, as by the 8-bit `TWDR` register). -/
def writeBytes (f : Nat → Nat) (i : Nat) : List Nat → (Nat → Nat)
  | [] => f
  | b :: r => writeBytes (Function.update f i (b % 256)) (i + 1) r

/-- A mid-transaction state used to test the arbitration-loss claim:
one byte of a two-byte write already sent (`txCount = 1`,
`bytesToSend = 1`). -/
def c1state : MState where
  state := .active
  muxPhase := .off
  bytesToSend := 1
  bytesToReceive := 0
  txCount := 1
  rxCount := 0
  completionStatus := .ok
  currentRequest :=
    { deviceAddress := 5, muxNumber := none, subBus := .subBusNone,
      operation := .send, writeLen := 2, readLen := 0,
      writeBuffer := [11, 22], readBuffer := fun _ => 0 }
  operation := .send
  muxCount := 1
  actions := []

/-- A write-only descriptor (no multiplexer): `writeLen` bytes from
`wb`, nothing to read. -/
def writeReq (wb : List Nat) (addr : Nat) : I2CRB where
  deviceAddress := addr
  muxNumber := none
  subBus := .subBusNone
  operation := .send
  writeLen := wb.length
  readLen := 0
  writeBuffer := wb
  readBuffer := fun _ => 0

/-- A read-only descriptor (no multiplexer): `len` bytes to read. -/
def readReq (len : Nat) (addr : Nat) : I2CRB where
  deviceAddress := addr
  muxNumber := none
  subBus := .subBusNone
  operation := .read
  writeLen := 0
  readLen := len
  writeBuffer := []
  readBuffer := fun _ => 0

/-- A write-then-read descriptor (no multiplexer). -/
def writeReadReq (wb : List Nat) (len : Nat) (addr : Nat) : I2CRB where
  deviceAddress := addr
  muxNumber := none
  subBus := .subBusNone
  operation := .request
  writeLen := wb.length
  readLen := len
  writeBuffer := wb
  readBuffer := fun _ => 0

/-- A multiplexer-routed write descriptor. -/
def muxWriteReq (wb : List Nat) (addr m : Nat) (sb : I2CSubBus) : I2CRB where
  deviceAddress := addr
  muxNumber := some m
  subBus := sb
  operation := .send
  writeLen := wb.length
  readLen := 0
  writeBuffer := wb
  readBuffer := fun _ => 0

/-- A mux-only descriptor: the reserved device address 0, so the
transaction only selects a sub-bus on the multiplexer. -/
def muxOnlyReq (m : Nat) (sb : I2CSubBus) : I2CRB where
  deviceAddress := 0
  muxNumber := some m
  subBus := sb
  operation := .send
  writeLen := 0
  readLen := 0
  writeBuffer := []
  readBuffer := fun _ => 0

/-- A multiplexer-routed read descriptor. -/
def muxReadReq (len : Nat) (addr m : Nat) (sb : I2CSubBus) : I2CRB where
  deviceAddress := addr
  muxNumber := some m
  subBus := sb
  operation := .read
  writeLen := 0
  readLen := len
  writeBuffer := []
  readBuffer := fun _ => 0

/-- The ACK-driven event sequence of a multiplexer-routed write
transaction of `n` payload bytes: START, mux address ACK, mask ACK,
repeated START, device address ACK, then `n` transmitter data ACKs. -/
def muxWriteEvents (n : Nat) : List (Nat × Nat) :=
  [(TWI_START, 0), (TWI_MTX_ADR_ACK, 0), (TWI_MTX_DATA_ACK, 0),
   (TWI_REP_START, 0), (TWI_MTX_ADR_ACK, 0)] ++
    List.replicate n (TWI_MTX_DATA_ACK, 0)

/-- The ACK-driven event sequence of a multiplexer-routed read
transaction: START, mux address ACK, mask ACK, repeated START, read
address ACK, the device's bytes (all but the last ACKed), and the final
byte with the master's NACK. -/
def muxReadEvents (body : List Nat) (last : Nat) : List (Nat × Nat) :=
  [(TWI_START, 0), (TWI_MTX_ADR_ACK, 0), (TWI_MTX_DATA_ACK, 0),
   (TWI_REP_START, 0), (TWI_MRX_ADR_ACK, 0)] ++
    body.map (fun b => (TWI_MRX_DATA_ACK, b)) ++
    [(TWI_MRX_DATA_NACK, last)]

/-- The ACK-driven event sequence of the Epilog phase: repeated START,
mux address ACK, deselect-mask ACK. -/
def epilogEvents : List (Nat × Nat) :=
  [(TWI_REP_START, 0), (TWI_MTX_ADR_ACK, 0), (TWI_MTX_DATA_ACK, 0)]

/-- States reachable from the initial driver state by any interleaving
of `beginTransaction` calls and hardware events. -/
inductive Reach (mc : Nat) : MState → Prop
  | init : Reach mc (initState mc)
  | begin (req : I2CRB) {s : MState} :
      Reach mc s → Reach mc (beginTransaction s req)
  | step (twsr d : Nat) {s : MState} :
      Reach mc s → Reach mc (I2C_handleInterrupt s twsr d)

/-! ## Basic lemmas about the embedding -/

theorem runEvents_nil (s : MState) : runEvents s [] = s := rfl

theorem runEvents_cons (s : MState) (e : Nat × Nat) (es : List (Nat × Nat)) :
    runEvents s (e :: es) = runEvents (I2C_handleInterrupt s e.1 e.2) es := rfl

theorem runEvents_append (s : MState) (l₁ l₂ : List (Nat × Nat)) :
    runEvents s (l₁ ++ l₂) = runEvents (runEvents s l₁) l₂ :=
  List.foldl_append ..

theorem runEvents_cons2 (s : MState) (t d : Nat) (es : List (Nat × Nat)) :
    runEvents s ((t, d) :: es) = runEvents (I2C_handleInterrupt s t d) es := rfl

theorem getD_of_drop_cons :
    ∀ (t : Nat) (l : List Nat) (b : Nat) (r : List Nat), l.drop t = b :: r →
      l.getD t 0 = b ∧ l.drop (t + 1) = r := by
  intro t
  induction t with
  | zero =>
    intro l b r h
    simp only [List.drop_zero] at h
    subst h
    exact ⟨rfl, by simp⟩
  | succ t ih =>
    intro l b r h
    cases l with
    | nil => simp at h
    | cons x xs =>
      simp only [List.drop_succ_cons] at h
      simpa using ih xs b r h

/-! ## Single-event step lemmas

Each lemma describes `I2C_handleInterrupt` on one status code under the
phase/counter conditions of the corresponding source branch. -/

/-- Transmit path: on a transmitter ACK (address or data) with bytes
still to send, the handler writes the next write-buffer byte. -/
theorem step_sendByte (s : MState) (twsr d : Nat)
    (hph : s.muxPhase = .off ∨ s.muxPhase = .passthru)
    (ht : twsr = TWI_MTX_DATA_ACK ∨ twsr = TWI_MTX_ADR_ACK)
    (hbs : s.bytesToSend ≠ 0) :
    I2C_handleInterrupt s twsr d =
      controlWrite
        { dataWrite s (s.currentRequest.writeBuffer.getD s.txCount 0) with
            txCount := s.txCount + 1, bytesToSend := s.bytesToSend - 1 }
        false false false := by
  rcases ht with ht | ht <;> subst ht <;> rcases hph with hph | hph <;>
    simp [I2C_handleInterrupt, muxDispatch, mainDispatch, hph, hbs,
      MuxPhase.val, TWI_MTX_ADR_ACK, TWI_MTX_DATA_ACK, TWI_MRX_DATA_NACK,
      TWI_START, TWI_REP_START, TWI_MTX_ADR_NACK, TWI_MRX_ADR_NACK,
      TWI_MTX_DATA_NACK, TWI_MRX_DATA_ACK, TWI_MRX_ADR_ACK]

/-- Transmit path: on a transmitter ACK with nothing left to send but
bytes to receive, the handler requests a repeated START. -/
theorem step_repStart (s : MState) (twsr d : Nat)
    (hph : s.muxPhase = .off ∨ s.muxPhase = .passthru)
    (ht : twsr = TWI_MTX_DATA_ACK ∨ twsr = TWI_MTX_ADR_ACK)
    (hbs : s.bytesToSend = 0) (hbr : s.bytesToReceive ≠ 0) :
    I2C_handleInterrupt s twsr d = controlWrite s false true false := by
  rcases ht with ht | ht <;> subst ht <;> rcases hph with hph | hph <;>
    simp [I2C_handleInterrupt, muxDispatch, mainDispatch, hph, hbs, hbr,
      MuxPhase.val, TWI_MTX_ADR_ACK, TWI_MTX_DATA_ACK, TWI_MRX_DATA_NACK,
      TWI_START, TWI_REP_START, TWI_MTX_ADR_NACK, TWI_MRX_ADR_NACK,
      TWI_MTX_DATA_NACK, TWI_MRX_DATA_ACK, TWI_MRX_ADR_ACK]

/-- Transmit path, no multiplexer: on a transmitter ACK with nothing
left to send or receive, the handler sends STOP and completes. -/
theorem step_complete (s : MState) (twsr d : Nat)
    (hph : s.muxPhase = .off)
    (ht : twsr = TWI_MTX_DATA_ACK ∨ twsr = TWI_MTX_ADR_ACK)
    (hbs : s.bytesToSend = 0) (hbr : s.bytesToReceive = 0) :
    I2C_handleInterrupt s twsr d =
      { controlWrite s true false true with state := .completed } := by
  rcases ht with ht | ht <;> subst ht <;>
    simp [I2C_handleInterrupt, muxDispatch, mainDispatch, hph, hbs, hbr,
      MuxPhase.val, TWI_MTX_ADR_ACK, TWI_MTX_DATA_ACK, TWI_MRX_DATA_NACK,
      TWI_START, TWI_REP_START, TWI_MTX_ADR_NACK, TWI_MRX_ADR_NACK,
      TWI_MTX_DATA_NACK, TWI_MRX_DATA_ACK, TWI_MRX_ADR_ACK]

/-- START/repeated-START outside the Prolog/Epilog phases: the handler
transmits the device address with the read/write direction bit. -/
theorem step_deviceAddress (s : MState) (twsr d : Nat)
    (hph : s.muxPhase = .off ∨ s.muxPhase = .passthru)
    (ht : twsr = TWI_START ∨ twsr = TWI_REP_START) :
    I2C_handleInterrupt s twsr d =
      controlWrite
        (dataWrite s ((s.currentRequest.deviceAddress <<< 1) |||
          (if s.operation = .read ∨ (s.operation = .request ∧ s.bytesToSend = 0)
           then 1 else 0)))
        true false false := by
  rcases ht with ht | ht <;> subst ht <;> rcases hph with hph | hph <;>
    simp [I2C_handleInterrupt, muxDispatch, mainDispatch, hph,
      MuxPhase.val, TWI_MTX_ADR_ACK, TWI_MTX_DATA_ACK, TWI_MRX_DATA_NACK,
      TWI_START, TWI_REP_START, TWI_MTX_ADR_NACK, TWI_MRX_ADR_NACK,
      TWI_MTX_DATA_NACK, TWI_MRX_DATA_ACK, TWI_MRX_ADR_ACK]

/-- Receiver address ACK: the handler arms an ACK when more than one
byte remains to receive and a NACK otherwise. -/
theorem step_recvAdrAck (s : MState) (d : Nat) :
    I2C_handleInterrupt s TWI_MRX_ADR_ACK d =
      (if s.bytesToReceive ≤ 1 then controlWrite s false false false
       else controlWrite s true false false) := by
  by_cases hph : s.muxPhase.val > MuxPhase.off.val <;>
    simp [I2C_handleInterrupt, muxDispatch, mainDispatch, hph,
      TWI_MTX_ADR_ACK, TWI_MTX_DATA_ACK, TWI_MRX_DATA_NACK,
      TWI_START, TWI_REP_START, TWI_MTX_ADR_NACK, TWI_MRX_ADR_NACK,
      TWI_MTX_DATA_NACK, TWI_MRX_DATA_ACK, TWI_MRX_ADR_ACK]

/-- Receiver data ACK with bytes outstanding: the handler stores the
received byte and arms the acknowledgement of the next one. -/
theorem step_recvByte (s : MState) (d : Nat) (hbr : 0 < s.bytesToReceive) :
    I2C_handleInterrupt s TWI_MRX_DATA_ACK d =
      (if s.bytesToReceive ≤ 2 then controlWrite (storeByte s d) false false false
       else controlWrite (storeByte s d) true false false) := by
  have hb2 : (storeByte s d).bytesToReceive = s.bytesToReceive - 1 := rfl
  by_cases hph : s.muxPhase.val > MuxPhase.off.val <;>
    by_cases hle : s.bytesToReceive ≤ 2 <;>
    simp [I2C_handleInterrupt, muxDispatch, mainDispatch, hph, hle, hbr, hb2,
      Nat.sub_le_iff_le_add,
      TWI_MTX_ADR_ACK, TWI_MTX_DATA_ACK, TWI_MRX_DATA_NACK,
      TWI_START, TWI_REP_START, TWI_MTX_ADR_NACK, TWI_MRX_ADR_NACK,
      TWI_MTX_DATA_NACK, TWI_MRX_DATA_ACK, TWI_MRX_ADR_ACK]

/-- Receiver data NACK, no multiplexer, final byte outstanding: the
handler stores the byte, sends STOP and completes. -/
theorem step_recvLast (s : MState) (d : Nat)
    (hph : s.muxPhase = .off) (hbr : 0 < s.bytesToReceive) :
    I2C_handleInterrupt s TWI_MRX_DATA_NACK d =
      { controlWrite (storeByte s d) true false true with state := .completed } := by
  simp [I2C_handleInterrupt, muxDispatch, mainDispatch, hph, hbr,
    MuxPhase.val, TWI_MTX_ADR_ACK, TWI_MTX_DATA_ACK, TWI_MRX_DATA_NACK,
    TWI_START, TWI_REP_START, TWI_MTX_ADR_NACK, TWI_MRX_ADR_NACK,
    TWI_MTX_DATA_NACK, TWI_MRX_DATA_ACK, TWI_MRX_ADR_ACK]

/-- Multiplexer path, START/repeated-START during Prolog or Epilog: the
handler transmits the multiplexer's bus address in write direction. -/
theorem step_muxAddress (s : MState) (twsr d : Nat)
    (hph : s.muxPhase = .prolog ∨ s.muxPhase = .epilog)
    (ht : twsr = TWI_START ∨ twsr = TWI_REP_START) :
    I2C_handleInterrupt s twsr d =
      controlWrite
        (dataWrite s
          (((I2C_MUX_BASE_ADDRESS + muxNumberVal s.currentRequest.muxNumber)
            <<< 1) ||| 0))
        false false false := by
  rcases ht with ht | ht <;> subst ht <;> rcases hph with hph | hph <;>
    simp [I2C_handleInterrupt, muxDispatch, mainDispatch, hph,
      MuxPhase.val, TWI_MTX_ADR_ACK, TWI_MTX_DATA_ACK, TWI_MRX_DATA_NACK,
      TWI_START, TWI_REP_START, TWI_MTX_ADR_NACK, TWI_MRX_ADR_NACK,
      TWI_MTX_DATA_NACK, TWI_MRX_DATA_ACK, TWI_MRX_ADR_ACK]

/-- Multiplexer path, transmitter address ACK during Prolog: the handler
transmits the sub-bus selection mask. -/
theorem step_muxMask (s : MState) (d : Nat) (hph : s.muxPhase = .prolog) :
    I2C_handleInterrupt s TWI_MTX_ADR_ACK d =
      controlWrite (dataWrite s (subBusMask s.currentRequest.subBus))
        false false false := by
  simp [I2C_handleInterrupt, muxDispatch, mainDispatch, hph,
    MuxPhase.val, TWI_MTX_ADR_ACK, TWI_MTX_DATA_ACK, TWI_MRX_DATA_NACK,
    TWI_START, TWI_REP_START, TWI_MTX_ADR_NACK, TWI_MRX_ADR_NACK,
    TWI_MTX_DATA_NACK, TWI_MRX_DATA_ACK, TWI_MRX_ADR_ACK]

/-- Multiplexer path, transmitter address ACK during Epilog: the handler
transmits the all-zero mask, deselecting every sub-bus. -/
theorem step_muxEpilogMask (s : MState) (d : Nat)
    (hph : s.muxPhase = .epilog) :
    I2C_handleInterrupt s TWI_MTX_ADR_ACK d =
      controlWrite (dataWrite s 0x00) false false false := by
  simp [I2C_handleInterrupt, muxDispatch, mainDispatch, hph,
    MuxPhase.val, TWI_MTX_ADR_ACK, TWI_MTX_DATA_ACK, TWI_MRX_DATA_NACK,
    TWI_START, TWI_REP_START, TWI_MTX_ADR_NACK, TWI_MRX_ADR_NACK,
    TWI_MTX_DATA_NACK, TWI_MRX_DATA_ACK, TWI_MRX_ADR_ACK]

/-- Multiplexer path, data ACK during Prolog for a mux-only request
(device address 0): STOP, Completed, mux machine Off. -/
theorem step_muxPrologDone (s : MState) (d : Nat)
    (hph : s.muxPhase = .prolog)
    (ha : s.currentRequest.deviceAddress = 0) :
    I2C_handleInterrupt s TWI_MTX_DATA_ACK d =
      { controlWrite (dataWrite s 0xff) false false true with
          state := .completed, muxPhase := .off } := by
  simp [I2C_handleInterrupt, muxDispatch, mainDispatch, hph, ha,
    MuxPhase.val, TWI_MTX_ADR_ACK, TWI_MTX_DATA_ACK, TWI_MRX_DATA_NACK,
    TWI_START, TWI_REP_START, TWI_MTX_ADR_NACK, TWI_MRX_ADR_NACK,
    TWI_MTX_DATA_NACK, TWI_MRX_DATA_ACK, TWI_MRX_ADR_ACK]

/-- Multiplexer path, data ACK during Prolog for a real device (address
nonzero): STOP-then-START, advance to Passthrough. -/
theorem step_muxPrologToPassthru (s : MState) (d : Nat)
    (hph : s.muxPhase = .prolog)
    (ha : s.currentRequest.deviceAddress ≠ 0) :
    I2C_handleInterrupt s TWI_MTX_DATA_ACK d =
      { controlWrite s false true true with muxPhase := .passthru } := by
  simp [I2C_handleInterrupt, muxDispatch, mainDispatch, hph, ha,
    MuxPhase.val, TWI_MTX_ADR_ACK, TWI_MTX_DATA_ACK, TWI_MRX_DATA_NACK,
    TWI_START, TWI_REP_START, TWI_MTX_ADR_NACK, TWI_MRX_ADR_NACK,
    TWI_MTX_DATA_NACK, TWI_MRX_DATA_ACK, TWI_MRX_ADR_ACK]

/-- Multiplexer path, data ACK during Passthrough with the device
transaction finished, more than one multiplexer: STOP-then-START,
advance to Epilog. -/
theorem step_muxPassthruToEpilog (s : MState) (d : Nat)
    (hph : s.muxPhase = .passthru)
    (hbs : s.bytesToSend = 0) (hbr : s.bytesToReceive = 0)
    (hmc : s.muxCount > 1) :
    I2C_handleInterrupt s TWI_MTX_DATA_ACK d =
      { controlWrite s false true true with muxPhase := .epilog } := by
  simp [I2C_handleInterrupt, muxDispatch, mainDispatch, hph, hbs, hbr, hmc,
    MuxPhase.val, TWI_MTX_ADR_ACK, TWI_MTX_DATA_ACK, TWI_MRX_DATA_NACK,
    TWI_START, TWI_REP_START, TWI_MTX_ADR_NACK, TWI_MRX_ADR_NACK,
    TWI_MTX_DATA_NACK, TWI_MRX_DATA_ACK, TWI_MRX_ADR_ACK]

/-- Multiplexer path, data ACK during Passthrough with the device
transaction finished, a single multiplexer: STOP, Completed, Off — the
Epilog is skipped. -/
theorem step_muxPassthruDone (s : MState) (d : Nat)
    (hph : s.muxPhase = .passthru)
    (hbs : s.bytesToSend = 0) (hbr : s.bytesToReceive = 0)
    (hmc : ¬ s.muxCount > 1) :
    I2C_handleInterrupt s TWI_MTX_DATA_ACK d =
      { controlWrite s false false true with
          state := .completed, muxPhase := .off } := by
  simp [I2C_handleInterrupt, muxDispatch, mainDispatch, hph, hbs, hbr, hmc,
    MuxPhase.val, TWI_MTX_ADR_ACK, TWI_MTX_DATA_ACK, TWI_MRX_DATA_NACK,
    TWI_START, TWI_REP_START, TWI_MTX_ADR_NACK, TWI_MRX_ADR_NACK,
    TWI_MTX_DATA_NACK, TWI_MRX_DATA_ACK, TWI_MRX_ADR_ACK]

/-- Multiplexer path, data ACK during Epilog: STOP, Completed, Off. -/
theorem step_muxEpilogDone (s : MState) (d : Nat)
    (hph : s.muxPhase = .epilog) :
    I2C_handleInterrupt s TWI_MTX_DATA_ACK d =
      { controlWrite (dataWrite s 0xff) false false true with
          state := .completed, muxPhase := .off } := by
  simp [I2C_handleInterrupt, muxDispatch, mainDispatch, hph,
    MuxPhase.val, TWI_MTX_ADR_ACK, TWI_MTX_DATA_ACK, TWI_MRX_DATA_NACK,
    TWI_START, TWI_REP_START, TWI_MTX_ADR_NACK, TWI_MRX_ADR_NACK,
    TWI_MTX_DATA_NACK, TWI_MRX_DATA_ACK, TWI_MRX_ADR_ACK]

/-- Multiplexer path, transmitter/receiver NACK during Passthrough: the
completion status is set to NegativeAcknowledge, a STOP-then-START is
requested, and the machine advances to Epilog — regardless of the
multiplexer count. -/
theorem step_muxNackToEpilog (s : MState) (twsr d : Nat)
    (hph : s.muxPhase = .passthru)
    (ht : twsr = TWI_MTX_ADR_NACK ∨ twsr = TWI_MRX_ADR_NACK ∨
      twsr = TWI_MTX_DATA_NACK) :
    I2C_handleInterrupt s twsr d =
      { controlWrite { s with completionStatus := .negativeAcknowledge }
          false true true with muxPhase := .epilog } := by
  rcases ht with ht | ht | ht <;> subst ht <;>
    simp [I2C_handleInterrupt, muxDispatch, mainDispatch, hph,
      MuxPhase.val, TWI_MTX_ADR_ACK, TWI_MTX_DATA_ACK, TWI_MRX_DATA_NACK,
      TWI_START, TWI_REP_START, TWI_MTX_ADR_NACK, TWI_MRX_ADR_NACK,
      TWI_MTX_DATA_NACK, TWI_MRX_DATA_ACK, TWI_MRX_ADR_ACK]

/-- Multiplexer path, receiver data NACK during Passthrough with the
final byte pending, more than one multiplexer: store the byte, then
STOP-then-START and advance to Epilog. -/
theorem step_muxRecvLastToEpilog (s : MState) (d : Nat)
    (hph : s.muxPhase = .passthru) (hbr : 0 < s.bytesToReceive)
    (hmc : s.muxCount > 1) :
    I2C_handleInterrupt s TWI_MRX_DATA_NACK d =
      { controlWrite (storeByte s d) false true true with
          muxPhase := .epilog } := by
  simp [I2C_handleInterrupt, muxDispatch, mainDispatch, hph, hbr, hmc,
    MuxPhase.val, TWI_MTX_ADR_ACK, TWI_MTX_DATA_ACK, TWI_MRX_DATA_NACK,
    TWI_START, TWI_REP_START, TWI_MTX_ADR_NACK, TWI_MRX_ADR_NACK,
    TWI_MTX_DATA_NACK, TWI_MRX_DATA_ACK, TWI_MRX_ADR_ACK, storeByte]

/-- Multiplexer path, receiver data NACK during Passthrough with the
final byte pending, a single multiplexer: store the byte, STOP,
Completed, Off — the Epilog is skipped. -/
theorem step_muxRecvLastDone (s : MState) (d : Nat)
    (hph : s.muxPhase = .passthru) (hbr : 0 < s.bytesToReceive)
    (hmc : ¬ s.muxCount > 1) :
    I2C_handleInterrupt s TWI_MRX_DATA_NACK d =
      { controlWrite (storeByte s d) false false true with
          state := .completed, muxPhase := .off } := by
  simp [I2C_handleInterrupt, muxDispatch, mainDispatch, hph, hbr, hmc,
    MuxPhase.val, TWI_MTX_ADR_ACK, TWI_MTX_DATA_ACK, TWI_MRX_DATA_NACK,
    TWI_START, TWI_REP_START, TWI_MTX_ADR_NACK, TWI_MRX_ADR_NACK,
    TWI_MTX_DATA_NACK, TWI_MRX_DATA_ACK, TWI_MRX_ADR_ACK, storeByte]

/-- With at most one configured multiplexer, no event other than the
three NACK-received codes can move the machine into the Epilog phase
(the two normal Epilog entries are guarded by `_muxCount > 1`), and the
multiplexer count itself never changes. -/
theorem step_noEpilog (s : MState) (twsr d : Nat)
    (hmc : s.muxCount ≤ 1)
    (hph : s.muxPhase ≠ .epilog)
    (ht : twsr ≠ TWI_MTX_ADR_NACK ∧ twsr ≠ TWI_MRX_ADR_NACK ∧
      twsr ≠ TWI_MTX_DATA_NACK) :
    (I2C_handleInterrupt s twsr d).muxPhase ≠ .epilog ∧
    (I2C_handleInterrupt s twsr d).muxCount ≤ 1 := by
  obtain ⟨ht1, ht2, ht3⟩ := ht
  cases hmux : muxDispatch s twsr d with
  | none =>
    simp only [I2C_handleInterrupt, hmux]
    unfold mainDispatch I2C_sendStart
    dsimp only
    split_ifs <;>
      first
      | exact ⟨hph, hmc⟩
      | (rcases hm : s.currentRequest.muxNumber with _ | n <;>
           simp [hm, controlWrite, dataWrite, storeByte, hmc, hph])
  | some s1 =>
    simp only [I2C_handleInterrupt, hmux]
    unfold muxDispatch at hmux
    dsimp only at hmux
    split_ifs at hmux <;>
      first
      | exact Option.noConfusion hmux
      | (injection hmux with hmux
         subst hmux
         simp_all [controlWrite, dataWrite, storeByte] <;> omega)

/-- `trace_noEpilog`: with at most one multiplexer, a run of events that
contains none of the NACK-received codes never visits the Epilog
phase. -/
theorem trace_noEpilog :
    ∀ (evts : List (Nat × Nat)) (s : MState),
      s.muxCount ≤ 1 → s.muxPhase ≠ .epilog →
      (∀ e ∈ evts, e.1 ≠ TWI_MTX_ADR_NACK ∧ e.1 ≠ TWI_MRX_ADR_NACK ∧
        e.1 ≠ TWI_MTX_DATA_NACK) →
      ∀ t ∈ traceStates s evts, t.muxPhase ≠ .epilog := by
  intro evts
  induction evts with
  | nil =>
    intro s _ hph _ t ht
    simp only [traceStates, List.mem_singleton] at ht
    subst ht
    exact hph
  | cons e es ih =>
    intro s hmc hph hts t ht
    simp only [traceStates, List.mem_cons] at ht
    rcases ht with rfl | ht
    · exact hph
    · obtain ⟨h1, h2⟩ := step_noEpilog s e.1 e.2 hmc hph
        (hts e (List.mem_cons_self e es))
      exact ih _ h2 h1
        (fun e' he' => hts e' (List.mem_cons_of_mem e he')) t ht

/-- The Epilog tail: from any state in the Epilog phase, a repeated
START followed by two ACKs transmits the multiplexer address and the
all-zero deselect mask, then stops and completes, leaving the recorded
completion status untouched. -/
theorem epilogTail (s : MState) (m : Nat)
    (hph : s.muxPhase = .epilog)
    (hm : s.currentRequest.muxNumber = some m) :
    (runEvents s epilogEvents).state = .completed ∧
    (runEvents s epilogEvents).muxPhase = .off ∧
    (runEvents s epilogEvents).completionStatus = s.completionStatus ∧
    (runEvents s epilogEvents).actions = s.actions ++
      [.data ((((I2C_MUX_BASE_ADDRESS + m) <<< 1) ||| 0) % 256),
       .control false false false,
       .data (0x00 % 256),
       .control false false false,
       .data (0xff % 256),
       .control false false true] := by
  rw [show epilogEvents = [(TWI_REP_START, 0), (TWI_MTX_ADR_ACK, 0),
    (TWI_MTX_DATA_ACK, 0)] from rfl]
  have h2 : I2C_handleInterrupt s TWI_REP_START 0 =
      controlWrite
        (dataWrite s
          (((I2C_MUX_BASE_ADDRESS + muxNumberVal s.currentRequest.muxNumber)
            <<< 1) ||| 0))
        false false false :=
    step_muxAddress s TWI_REP_START 0 (Or.inr hph) (Or.inr rfl)
  have h3 : I2C_handleInterrupt
      (controlWrite
        (dataWrite s
          (((I2C_MUX_BASE_ADDRESS + muxNumberVal s.currentRequest.muxNumber)
            <<< 1) ||| 0))
        false false false)
      TWI_MTX_ADR_ACK 0 =
      controlWrite
        (dataWrite
          (controlWrite
            (dataWrite s
              (((I2C_MUX_BASE_ADDRESS + muxNumberVal s.currentRequest.muxNumber)
                <<< 1) ||| 0))
            false false false)
          0x00)
        false false false :=
    step_muxEpilogMask _ 0 hph
  have h4 := step_muxEpilogDone
      (controlWrite
        (dataWrite
          (controlWrite
            (dataWrite s
              (((I2C_MUX_BASE_ADDRESS + muxNumberVal s.currentRequest.muxNumber)
                <<< 1) ||| 0))
            false false false)
          0x00)
        false false false)
      0 hph
  rw [runEvents_cons2, h2, runEvents_cons2, h3, runEvents_cons2, h4,
    runEvents_nil]
  refine ⟨?_, ?_, ?_, ?_⟩ <;>
    simp [controlWrite, dataWrite, hm, muxNumberVal]

/-! ## Loop lemmas for clean runs -/

/-- Transmit loop: from a state whose remaining write payload (the write
buffer from `txCount` on) is `rest`, with `bytesToSend = rest.length`,
a run of transmitter data ACKs sends exactly the bytes of `rest` in
order. -/
theorem sendLoop :
    ∀ (rest : List Nat) (s : MState),
      (s.muxPhase = .off ∨ s.muxPhase = .passthru) →
      s.bytesToSend = rest.length →
      s.currentRequest.writeBuffer.drop s.txCount = rest →
      runEvents s (List.replicate rest.length (TWI_MTX_DATA_ACK, 0)) =
        { s with
          bytesToSend := 0
          txCount := s.txCount + rest.length
          actions := s.actions ++ sendLog rest } := by
  intro rest
  induction rest with
  | nil =>
    intro s hph h2 h3
    simp only [List.length_nil, List.replicate_zero, runEvents_nil, sendLog,
      List.append_nil, Nat.add_zero]
    cases s
    simp_all
  | cons b r ih =>
    intro s hph h2 h3
    obtain ⟨hb, hdrop⟩ := getD_of_drop_cons s.txCount _ b r h3
    rw [List.length_cons, List.replicate_succ, runEvents_cons]
    rw [show ((TWI_MTX_DATA_ACK, 0) : Nat × Nat).1 = TWI_MTX_DATA_ACK from rfl,
      show ((TWI_MTX_DATA_ACK, 0) : Nat × Nat).2 = 0 from rfl]
    rw [step_sendByte s TWI_MTX_DATA_ACK 0 hph (Or.inl rfl) (by
      rw [h2]; exact (Nat.succ_ne_zero r.length))]
    have hph1 : (controlWrite
        { dataWrite s (s.currentRequest.writeBuffer.getD s.txCount 0) with
            txCount := s.txCount + 1, bytesToSend := s.bytesToSend - 1 }
        false false false).muxPhase = .off ∨
        (controlWrite
        { dataWrite s (s.currentRequest.writeBuffer.getD s.txCount 0) with
            txCount := s.txCount + 1, bytesToSend := s.bytesToSend - 1 }
        false false false).muxPhase = .passthru := hph
    have hlen1 : (controlWrite
        { dataWrite s (s.currentRequest.writeBuffer.getD s.txCount 0) with
            txCount := s.txCount + 1, bytesToSend := s.bytesToSend - 1 }
        false false false).bytesToSend = r.length := by
      show s.bytesToSend - 1 = r.length
      rw [h2]; rfl
    have hdrop1 : (controlWrite
        { dataWrite s (s.currentRequest.writeBuffer.getD s.txCount 0) with
            txCount := s.txCount + 1, bytesToSend := s.bytesToSend - 1 }
        false false false).currentRequest.writeBuffer.drop
        (controlWrite
        { dataWrite s (s.currentRequest.writeBuffer.getD s.txCount 0) with
            txCount := s.txCount + 1, bytesToSend := s.bytesToSend - 1 }
        false false false).txCount = r := hdrop
    rw [ih _ hph1 hlen1 hdrop1]
    cases s
    simp_all [controlWrite, dataWrite, sendLog]
    omega

/-- Receive loop: from a state with `bs.length + 1` bytes outstanding, a
run of receiver data ACKs delivering the bytes `bs` stores them at
consecutive read-buffer positions and arms ACK for each byte while more
than one remains, NACK when one remains. -/
theorem recvLoop :
    ∀ (bs : List Nat) (s : MState),
      s.bytesToReceive = bs.length + 1 →
      runEvents s (bs.map (fun b => (TWI_MRX_DATA_ACK, b))) =
        { s with
          bytesToReceive := 1
          rxCount := s.rxCount + bs.length
          currentRequest := { s.currentRequest with
            readBuffer := writeBytes s.currentRequest.readBuffer s.rxCount bs }
          actions := s.actions ++ recvArms bs } := by
  intro bs
  induction bs with
  | nil =>
    intro s h
    simp only [List.map_nil, runEvents_nil, writeBytes, recvArms,
      List.append_nil, Nat.add_zero]
    cases s with
    | mk st ph b2s b2r tx rx cs cr op mc ac =>
      cases cr
      simp_all
  | cons b r ih =>
    intro s h
    rw [List.map_cons, runEvents_cons]
    rw [show ((TWI_MRX_DATA_ACK, b) : Nat × Nat).1 = TWI_MRX_DATA_ACK from rfl,
      show ((TWI_MRX_DATA_ACK, b) : Nat × Nat).2 = b from rfl]
    rw [step_recvByte s b (by omega)]
    rcases r with _ | ⟨c, r'⟩
    · -- last ACKed byte: one byte will remain, so the arm is a NACK
      rw [if_pos (by simp at h; omega)]
      have h1 : (controlWrite (storeByte s b) false false false).bytesToReceive
          = ([] : List Nat).length + 1 := by
        show s.bytesToReceive - 1 = 0 + 1
        simp at h
        omega
      rw [ih _ h1]
      cases s with
      | mk st ph b2s b2r tx rx cs cr op mc ac =>
        cases cr
        simp_all [controlWrite, storeByte, writeBytes, recvArms]
    · -- more than one byte remains: the arm is an ACK
      rw [if_neg (by simp at h; omega)]
      have h1 : (controlWrite (storeByte s b) true false false).bytesToReceive
          = (c :: r').length + 1 := by
        show s.bytesToReceive - 1 = (c :: r').length + 1
        simp at h ⊢
        omega
      rw [ih _ h1]
      cases s with
      | mk st ph b2s b2r tx rx cs cr op mc ac =>
        cases cr
        simp_all [controlWrite, storeByte, writeBytes, recvArms]
        omega

/-- Reading below the start index of a `writeBytes` block is untouched. -/
theorem writeBytes_below :
    ∀ (bs : List Nat) (f : Nat → Nat) (k x : Nat), x < k →
      writeBytes f k bs x = f x := by
  intro bs
  induction bs with
  | nil => intro f k x _; rfl
  | cons b r ih =>
    intro f k x hx
    show writeBytes (Function.update f k (b % 256)) (k + 1) r x = f x
    rw [ih _ (k + 1) x (by omega)]
    exact Function.update_noteq (by omega) _ _

/-- Reading at or beyond the end of a `writeBytes` block is untouched. -/
theorem writeBytes_beyond :
    ∀ (bs : List Nat) (f : Nat → Nat) (k x : Nat), k + bs.length ≤ x →
      writeBytes f k bs x = f x := by
  intro bs
  induction bs with
  | nil => intro f k x _; rfl
  | cons b r ih =>
    intro f k x hx
    simp only [List.length_cons] at hx
    show writeBytes (Function.update f k (b % 256)) (k + 1) r x = f x
    rw [ih _ (k + 1) x (by omega)]
    exact Function.update_noteq (by omega) _ _

/-- Reading inside a `writeBytes` block returns the stored byte. -/
theorem writeBytes_lookup :
    ∀ (bs : List Nat) (f : Nat → Nat) (k j : Nat), j < bs.length →
      writeBytes f k bs (k + j) = bs.getD j 0 % 256 := by
  intro bs
  induction bs with
  | nil => intro f k j hj; simp at hj
  | cons b r ih =>
    intro f k j hj
    show writeBytes (Function.update f k (b % 256)) (k + 1) r (k + j) = _
    cases j with
    | zero =>
      rw [writeBytes_below r _ (k + 1) (k + 0) (by omega)]
      simp [Function.update_same]
    | succ j' =>
      have hidx : k + (j' + 1) = (k + 1) + j' := by omega
      rw [hidx, ih _ (k + 1) j' (by simpa using hj)]
      rfl

/-- Appending one more stored byte to a `writeBytes` block. -/
theorem writeBytes_snoc :
    ∀ (bs : List Nat) (f : Nat → Nat) (k b : Nat),
      writeBytes f k (bs ++ [b]) =
        Function.update (writeBytes f k bs) (k + bs.length) (b % 256) := by
  intro bs
  induction bs with
  | nil =>
    intro f k b
    show Function.update f k (b % 256) = Function.update f (k + 0) (b % 256)
    rw [Nat.add_zero]
  | cons c r ih =>
    intro f k b
    show writeBytes (Function.update f k (c % 256)) (k + 1) (r ++ [b]) = _
    rw [ih]
    have : k + 1 + r.length = k + (c :: r).length := by
      simp
      omega
    rw [this]
    rfl

/-- A transmit loop requests no STOP condition. -/
theorem sendLog_noStop :
    ∀ bs : List Nat, (sendLog bs).countP RegWrite.isStop = 0 := by
  intro bs
  induction bs with
  | nil => rfl
  | cons b r ih =>
    show ((RegWrite.data (b % 256)) :: (RegWrite.control false false false) ::
      sendLog r).countP RegWrite.isStop = 0
    rw [List.countP_cons_of_neg _ _ (by simp [RegWrite.isStop]),
      List.countP_cons_of_neg _ _ (by simp [RegWrite.isStop]), ih]

/-- Acknowledgement arms request no STOP condition. -/
theorem replicateAck_noStop (n : Nat) :
    (List.replicate n (RegWrite.control true false false)).countP
      RegWrite.isStop = 0 := by
  induction n with
  | zero => rfl
  | succ n ih =>
    rw [List.replicate_succ,
      List.countP_cons_of_neg _ _ (by simp [RegWrite.isStop]), ih]

/-- The arm pattern of a full receive run: `bs.length` ACK arms followed
by exactly one NACK arm. -/
theorem recvArms_closed (bs : List Nat) :
    .control (!bs.isEmpty) false false :: recvArms bs =
      List.replicate bs.length (.control true false false) ++
        [.control false false false] := by
  induction bs with
  | nil => rfl
  | cons b r ih =>
    rw [List.length_cons, List.replicate_succ]
    show RegWrite.control true false false :: recvArms (b :: r) = _
    show RegWrite.control true false false ::
      (RegWrite.control (!r.isEmpty) false false :: recvArms r) = _
    rw [ih]
    rfl

/-- C1, counterexample: handling an arbitration-lost status (0x38) in a
mid-transaction state does NOT retain the in-progress counter values:
`bytesToSend` is reloaded from the descriptor's `writeLen` (1 becomes 2)
and `txCount` is zeroed (1 becomes 0), because `I2C_sendStart`
reinitialises all four counters. -/
theorem C1_counterexample :
    c1state.bytesToSend = 1 ∧ c1state.txCount = 1 ∧
    (I2C_handleInterrupt c1state TWI_ARB_LOST 0).bytesToSend = 2 ∧
    (I2C_handleInterrupt c1state TWI_ARB_LOST 0).txCount = 0 :=
  ⟨rfl, rfl, rfl, rfl⟩

/-- C1, amended: on an arbitration-lost status the handler calls
`I2C_sendStart`, which reissues the START condition and resets the byte
counters: `bytesToSend`/`bytesToReceive` are reloaded from the
descriptor's `writeLen`/`readLen` and `txCount`/`rxCount` are zeroed,
so the restarted transaction begins again from byte 0. -/
theorem C1_amended (s : MState) (d : Nat) :
    I2C_handleInterrupt s TWI_ARB_LOST d = I2C_sendStart s ∧
    (I2C_handleInterrupt s TWI_ARB_LOST d).bytesToSend = s.currentRequest.writeLen ∧
    (I2C_handleInterrupt s TWI_ARB_LOST d).bytesToReceive = s.currentRequest.readLen ∧
    (I2C_handleInterrupt s TWI_ARB_LOST d).txCount = 0 ∧
    (I2C_handleInterrupt s TWI_ARB_LOST d).rxCount = 0 ∧
    (I2C_handleInterrupt s TWI_ARB_LOST d).actions =
      s.actions ++ [.control true true false] := by
  have h : I2C_handleInterrupt s TWI_ARB_LOST d = I2C_sendStart s := by
    simp [I2C_handleInterrupt, muxDispatch, mainDispatch, TWI_ARB_LOST,
      TWI_MTX_ADR_ACK, TWI_MTX_DATA_ACK, TWI_MRX_DATA_NACK, TWI_START,
      TWI_REP_START, TWI_MTX_ADR_NACK, TWI_MRX_ADR_NACK, TWI_MTX_DATA_NACK,
      TWI_MRX_DATA_ACK, TWI_MRX_ADR_ACK]
  refine ⟨h, ?_⟩
  rw [h]
  unfold I2C_sendStart
  rcases hm : s.currentRequest.muxNumber with _ | n <;>
    simp [hm, controlWrite]

/-! ## Claim C3: clock configurator -/

/-- C3, counterexample: at the standard 16 MHz processor clock a
requested rate of 90000 bits/s yields divisor pair (80, 0), whose
actual bus rate 16000000/(16+2·80) = 90909 bits/s is strictly FASTER
than requested — the configurator rounds the divisor down, hence the
rate up, contradicting the never-faster claim. -/
theorem C3_counterexample :
    I2C_setClock 16000000 90000 = (80, 0) ∧
    16000000 / (16 + 2 * effectiveDivisor (I2C_setClock 16000000 90000)) = 90909 ∧
    90000 < 90909 := by
  refine ⟨?_, ?_, by norm_num⟩ <;> rfl

/-- A representable divisor `t * 4 ^ q` whose prescaler `q` is at least
the selected prescaler `p` is bounded by the floored selection
`temp / 4 ^ p * 4 ^ p`. -/
theorem repLe_of_le (temp t p q : Nat) (hpq : p ≤ q)
    (hle : t * 4 ^ q ≤ temp) :
    t * 4 ^ q ≤ temp / 4 ^ p * 4 ^ p := by
  have h4 : (0 : Nat) < 4 ^ p := pow_pos (by norm_num) p
  have hq4 : 4 ^ (q - p) * 4 ^ p = 4 ^ q := by
    rw [← pow_add, Nat.sub_add_cancel hpq]
  have h1 : t * 4 ^ (q - p) ≤ temp / 4 ^ p := by
    rw [Nat.le_div_iff_mul_le h4, Nat.mul_assoc, hq4]
    exact hle
  calc t * 4 ^ q = t * 4 ^ (q - p) * 4 ^ p := by rw [Nat.mul_assoc, hq4]
    _ ≤ temp / 4 ^ p * 4 ^ p := Nat.mul_le_mul h1 (Nat.le_refl _)

/-- A representable divisor `t * 4 ^ q` whose prescaler `q` is below the
selected prescaler is bounded by the floored selection, because the
divisor at prescaler `q` was still above 255. -/
theorem repLe_of_lt (temp t p q : Nat) (ht : t ≤ 255) (hple : p ≤ q + 4)
    (hbig : 255 < temp / 4 ^ q) :
    t * 4 ^ q ≤ temp / 4 ^ p * 4 ^ p := by
  have h4q : (0 : Nat) < 4 ^ q := pow_pos (by norm_num) q
  have e44 : (4 : Nat) ^ 4 = 256 := by norm_num
  have h1 : 256 * 4 ^ q ≤ temp := (Nat.le_div_iff_mul_le h4q).mp hbig
  have h2 : 4 ^ (q + 4) ≤ temp := by
    calc 4 ^ (q + 4) = 4 ^ q * 4 ^ 4 := pow_add 4 q 4
      _ = 4 ^ q * 256 := by rw [e44]
      _ = 256 * 4 ^ q := Nat.mul_comm _ _
      _ ≤ temp := h1
  have h3 : 4 ^ (q + 4 - p) ≤ temp / 4 ^ p := by
    have hdiv : 4 ^ (q + 4) / 4 ^ p = 4 ^ (q + 4 - p) :=
      Nat.pow_div hple (by norm_num)
    rw [← hdiv]
    exact Nat.div_le_div_right h2
  have h5 : 4 ^ (q + 4 - p) * 4 ^ p = 4 ^ (q + 4) := by
    rw [← pow_add, Nat.sub_add_cancel hple]
  calc t * 4 ^ q ≤ 256 * 4 ^ q :=
        Nat.mul_le_mul (Nat.le_trans ht (by norm_num)) (Nat.le_refl _)
    _ = 4 ^ q * 256 := Nat.mul_comm _ _
    _ = 4 ^ q * 4 ^ 4 := by rw [e44]
    _ = 4 ^ (q + 4) := (pow_add 4 q 4).symm
    _ = 4 ^ (q + 4 - p) * 4 ^ p := h5.symm
    _ ≤ temp / 4 ^ p * 4 ^ p := Nat.mul_le_mul h3 (Nat.le_refl _)

/-- C3, amended: `I2C_setClock` programs the LARGEST representable
effective divisor `TWBR * 4^prescaler` (TWBR ≤ 255, prescaler ≤ 3) not
exceeding the raw divisor `((F_CPU/f) - 16) / 2`, so the selected rate
is the closest representable rate that is greater than or equal to the
requested rate — never slower, rather than never faster; when the raw
divisor is out of range even with the maximum prescaler 3 it clamps to
(255, 3) (about 500 bits/s at 16 MHz) without raising an error. -/
theorem C3_amended (fcpu speed : Nat) :
    (I2C_setClock fcpu speed).1 ≤ 255 ∧
    (I2C_setClock fcpu speed).2 ≤ 3 ∧
    effectiveDivisor (I2C_setClock fcpu speed) ≤ rawDivisor fcpu speed ∧
    (∀ t q, t ≤ 255 → q ≤ 3 → t * 4 ^ q ≤ rawDivisor fcpu speed →
      t * 4 ^ q ≤ effectiveDivisor (I2C_setClock fcpu speed)) ∧
    (16384 ≤ rawDivisor fcpu speed → I2C_setClock fcpu speed = (255, 3)) ∧
    (0 < speed → fcpu < 2 ^ 32 → 16 ≤ fcpu / speed →
      speed * (16 + 2 * effectiveDivisor (I2C_setClock fcpu speed)) ≤ fcpu) := by
  set temp := rawDivisor fcpu speed with htemp
  have hunf : I2C_setClock fcpu speed =
      (if temp ≤ 255 then ((temp, 0) : Nat × Nat)
       else if temp / 4 ≤ 255 then (temp / 4, 1)
       else if temp / 16 ≤ 255 then (temp / 16, 2)
       else if temp / 64 ≤ 255 then (temp / 64, 3)
       else (255, 3)) := rfl
  have hrate : effectiveDivisor (I2C_setClock fcpu speed) ≤ temp →
      (0 < speed → fcpu < 2 ^ 32 → 16 ≤ fcpu / speed →
        speed * (16 + 2 * effectiveDivisor (I2C_setClock fcpu speed)) ≤ fcpu) := by
    intro hle hs hf hq
    have hA2 : fcpu / speed < 2 ^ 32 := Nat.lt_of_le_of_lt (Nat.div_le_self _ _) hf
    have e2 : (fcpu / speed + (2 ^ 32 - 16)) % 2 ^ 32 = fcpu / speed - 16 := by
      have e1 : fcpu / speed + (2 ^ 32 - 16) = (fcpu / speed - 16) + 2 ^ 32 := by
        conv_lhs => rw [← Nat.sub_add_cancel hq]
        rw [Nat.add_assoc]
        norm_num
      rw [e1, Nat.add_mod_right]
      exact Nat.mod_eq_of_lt (Nat.lt_of_le_of_lt (Nat.sub_le _ _) hA2)
    have htemp2 : temp = (fcpu / speed - 16) / 2 := by
      rw [htemp]; unfold rawDivisor; rw [e2]
    have h2t : 2 * temp ≤ fcpu / speed - 16 := by
      rw [htemp2, Nat.mul_comm]
      exact Nat.div_mul_le_self _ _
    have h16 : 16 + 2 * effectiveDivisor (I2C_setClock fcpu speed) ≤ fcpu / speed := by
      have hx : 2 * effectiveDivisor (I2C_setClock fcpu speed) ≤ fcpu / speed - 16 :=
        Nat.le_trans (Nat.mul_le_mul (Nat.le_refl 2) hle) h2t
      calc 16 + 2 * effectiveDivisor (I2C_setClock fcpu speed)
          ≤ 16 + (fcpu / speed - 16) := Nat.add_le_add_left hx 16
        _ = fcpu / speed := Nat.add_sub_cancel' hq
    calc speed * (16 + 2 * effectiveDivisor (I2C_setClock fcpu speed))
        ≤ speed * (fcpu / speed) := Nat.mul_le_mul (Nat.le_refl _) h16
      _ ≤ fcpu := by rw [Nat.mul_comm]; exact Nat.div_mul_le_self _ _
  by_cases h1 : temp ≤ 255
  · have hset : I2C_setClock fcpu speed = (temp, 0) := by rw [hunf, if_pos h1]
    have hed : effectiveDivisor (I2C_setClock fcpu speed) = temp := by
      rw [hset]; simp [effectiveDivisor]
    refine ⟨?_, ?_, ?_, ?_, ?_, hrate (Nat.le_of_eq hed)⟩
    · rw [hset]; exact h1
    · rw [hset]; norm_num
    · rw [hed]
    · intro t q ht hq hle
      rw [hed]; exact hle
    · intro h
      exact absurd (Nat.le_trans h h1) (by norm_num)
  · have hbig0 : 255 < temp / 4 ^ 0 := by
      rw [pow_zero, Nat.div_one]; exact Nat.lt_of_not_le h1
    by_cases h2 : temp / 4 ≤ 255
    · have hset : I2C_setClock fcpu speed = (temp / 4, 1) := by
        rw [hunf, if_neg h1, if_pos h2]
      have hed : effectiveDivisor (I2C_setClock fcpu speed) = temp / 4 ^ 1 * 4 ^ 1 := by
        rw [hset]; simp [effectiveDivisor]
      refine ⟨?_, ?_, ?_, ?_, ?_, hrate ?_⟩
      · rw [hset]; exact h2
      · rw [hset]; norm_num
      · rw [hed, pow_one]; exact Nat.div_mul_le_self _ _
      · intro t q ht hq hle
        rw [hed]
        by_cases hpq : 1 ≤ q
        · exact repLe_of_le temp t 1 q hpq hle
        · have hq0 : q = 0 := Nat.lt_one_iff.mp (Nat.lt_of_not_le hpq)
          subst hq0
          exact repLe_of_lt temp t 1 0 ht (by norm_num) hbig0
      · intro h
        have h' : 16384 / 4 ≤ temp / 4 := Nat.div_le_div_right h
        norm_num at h'
        exact absurd (Nat.le_trans h' h2) (by norm_num)
      · rw [hed, pow_one]; exact Nat.div_mul_le_self _ _
    · have hbig1 : 255 < temp / 4 ^ 1 := by
        rw [pow_one]; exact Nat.lt_of_not_le h2
      by_cases h3 : temp / 16 ≤ 255
      · have hset : I2C_setClock fcpu speed = (temp / 16, 2) := by
          rw [hunf, if_neg h1, if_neg h2, if_pos h3]
        have h42 : (4 : Nat) ^ 2 = 16 := by norm_num
        have hed : effectiveDivisor (I2C_setClock fcpu speed) = temp / 4 ^ 2 * 4 ^ 2 := by
          rw [hset, h42]; simp [effectiveDivisor, h42]
        refine ⟨?_, ?_, ?_, ?_, ?_, hrate ?_⟩
        · rw [hset]; exact h3
        · rw [hset]; norm_num
        · rw [hed]; exact Nat.div_mul_le_self _ _
        · intro t q ht hq hle
          rw [hed]
          by_cases hpq : 2 ≤ q
          · exact repLe_of_le temp t 2 q hpq hle
          · have hq01 : q = 0 ∨ q = 1 := by omega
            rcases hq01 with rfl | rfl
            · exact repLe_of_lt temp t 2 0 ht (by norm_num) hbig0
            · exact repLe_of_lt temp t 2 1 ht (by norm_num) hbig1
        · intro h
          have h' : 16384 / 16 ≤ temp / 16 := Nat.div_le_div_right h
          norm_num at h'
          exact absurd (Nat.le_trans h' h3) (by norm_num)
        · rw [hed]; exact Nat.div_mul_le_self _ _
      · have hbig2 : 255 < temp / 4 ^ 2 := by
          have h42 : (4 : Nat) ^ 2 = 16 := by norm_num
          rw [h42]; exact Nat.lt_of_not_le h3
        by_cases h4 : temp / 64 ≤ 255
        · have hset : I2C_setClock fcpu speed = (temp / 64, 3) := by
            rw [hunf, if_neg h1, if_neg h2, if_neg h3, if_pos h4]
          have h43 : (4 : Nat) ^ 3 = 64 := by norm_num
          have hed : effectiveDivisor (I2C_setClock fcpu speed) = temp / 4 ^ 3 * 4 ^ 3 := by
            rw [hset, h43]; simp [effectiveDivisor, h43]
          refine ⟨?_, ?_, ?_, ?_, ?_, hrate ?_⟩
          · rw [hset]; exact h4
          · rw [hset]
          · rw [hed]; exact Nat.div_mul_le_self _ _
          · intro t q ht hq hle
            rw [hed]
            by_cases hpq : 3 ≤ q
            · exact repLe_of_le temp t 3 q hpq hle
            · have hq012 : q = 0 ∨ q = 1 ∨ q = 2 := by omega
              rcases hq012 with rfl | rfl | rfl
              · exact repLe_of_lt temp t 3 0 ht (by norm_num) hbig0
              · exact repLe_of_lt temp t 3 1 ht (by norm_num) hbig1
              · exact repLe_of_lt temp t 3 2 ht (by norm_num) hbig2
          · intro h
            have h' : 16384 / 64 ≤ temp / 64 := Nat.div_le_div_right h
            norm_num at h'
            exact absurd (Nat.le_trans h' h4) (by norm_num)
          · rw [hed]; exact Nat.div_mul_le_self _ _
        · have hset : I2C_setClock fcpu speed = (255, 3) := by
            rw [hunf, if_neg h1, if_neg h2, if_neg h3, if_neg h4]
          have hed : effectiveDivisor (I2C_setClock fcpu speed) = 16320 := by
            rw [hset]; norm_num [effectiveDivisor]
          have hclamp : 16384 ≤ temp := by
            have h64 : 256 * 64 ≤ temp :=
              (Nat.le_div_iff_mul_le (by norm_num)).mp (Nat.lt_of_not_le h4)
            calc (16384 : Nat) = 256 * 64 := by norm_num
              _ ≤ temp := h64
          refine ⟨?_, ?_, ?_, ?_, fun _ => hset, hrate ?_⟩
          · rw [hset]
          · rw [hset]
          · rw [hed]; exact Nat.le_trans (by norm_num) hclamp
          · intro t q ht hq hle
            rw [hed]
            calc t * 4 ^ q ≤ 255 * 4 ^ 3 :=
                  Nat.mul_le_mul ht (Nat.pow_le_pow_right (by norm_num) hq)
              _ = 16320 := by norm_num
          · rw [hed]; exact Nat.le_trans (by norm_num) hclamp

/-! ## Claim C6: pure write transaction -/

/-- C6: a write-only transaction of `N = (w0 :: wrest).length > 0` bytes
with sequential ACKs transmits exactly the write-buffer bytes in index
order (visible as `sendLog (w0 :: wrest)` in the register-write log,
directly after START and the SLA+W address byte), then issues a single
STOP and completes with status Ok. -/
theorem C6_writeTransaction (w0 : Nat) (wrest : List Nat) (addr mc : Nat) :
    runEvents (beginTransaction (initState mc) (writeReq (w0 :: wrest) addr))
      ([(TWI_START, 0), (TWI_MTX_ADR_ACK, 0)] ++
        List.replicate (w0 :: wrest).length (TWI_MTX_DATA_ACK, 0)) =
      { state := .completed
        muxPhase := .off
        bytesToSend := 0
        bytesToReceive := 0
        txCount := (w0 :: wrest).length
        rxCount := 0
        completionStatus := .ok
        currentRequest := writeReq (w0 :: wrest) addr
        operation := .send
        muxCount := mc
        actions := [.control true true false,
            .data (((addr <<< 1) ||| 0) % 256),
            .control true false false] ++
          sendLog (w0 :: wrest) ++ [.control true false true] } := by
  have h0 : beginTransaction (initState mc) (writeReq (w0 :: wrest) addr) =
      { state := .active, muxPhase := .off,
        bytesToSend := (w0 :: wrest).length, bytesToReceive := 0,
        txCount := 0, rxCount := 0, completionStatus := .ok,
        currentRequest := writeReq (w0 :: wrest) addr, operation := .send,
        muxCount := mc, actions := [.control true true false] } := rfl
  have hevents : ([(TWI_START, 0), (TWI_MTX_ADR_ACK, 0)] ++
        List.replicate (w0 :: wrest).length (TWI_MTX_DATA_ACK, 0)
        : List (Nat × Nat)) =
      (TWI_START, 0) :: (TWI_MTX_ADR_ACK, 0) ::
        (List.replicate wrest.length (TWI_MTX_DATA_ACK, 0) ++
          [(TWI_MTX_DATA_ACK, 0)]) := by
    rw [List.length_cons, List.replicate_succ']
    rfl
  have h1 : I2C_handleInterrupt
      { state := .active, muxPhase := .off,
        bytesToSend := (w0 :: wrest).length, bytesToReceive := 0,
        txCount := 0, rxCount := 0, completionStatus := .ok,
        currentRequest := writeReq (w0 :: wrest) addr, operation := .send,
        muxCount := mc, actions := [.control true true false] }
      TWI_START 0 =
      { state := .active, muxPhase := .off,
        bytesToSend := (w0 :: wrest).length, bytesToReceive := 0,
        txCount := 0, rxCount := 0, completionStatus := .ok,
        currentRequest := writeReq (w0 :: wrest) addr, operation := .send,
        muxCount := mc,
        actions := [.control true true false,
          .data (((addr <<< 1) ||| 0) % 256), .control true false false] } := by
    rw [step_deviceAddress _ _ _ (Or.inl rfl) (Or.inl rfl), if_neg (by simp)]
    rfl
  have h2 : I2C_handleInterrupt
      { state := .active, muxPhase := .off,
        bytesToSend := (w0 :: wrest).length, bytesToReceive := 0,
        txCount := 0, rxCount := 0, completionStatus := .ok,
        currentRequest := writeReq (w0 :: wrest) addr, operation := .send,
        muxCount := mc,
        actions := [.control true true false,
          .data (((addr <<< 1) ||| 0) % 256), .control true false false] }
      TWI_MTX_ADR_ACK 0 =
      { state := .active, muxPhase := .off,
        bytesToSend := wrest.length, bytesToReceive := 0,
        txCount := 1, rxCount := 0, completionStatus := .ok,
        currentRequest := writeReq (w0 :: wrest) addr, operation := .send,
        muxCount := mc,
        actions := [.control true true false,
          .data (((addr <<< 1) ||| 0) % 256), .control true false false,
          .data (w0 % 256), .control false false false] } := by
    rw [step_sendByte _ _ _ (Or.inl rfl) (Or.inr rfl) (by simp [writeReq])]
    rfl
  have h3 := sendLoop wrest
      { state := .active, muxPhase := .off,
        bytesToSend := wrest.length, bytesToReceive := 0,
        txCount := 1, rxCount := 0, completionStatus := .ok,
        currentRequest := writeReq (w0 :: wrest) addr, operation := .send,
        muxCount := mc,
        actions := [.control true true false,
          .data (((addr <<< 1) ||| 0) % 256), .control true false false,
          .data (w0 % 256), .control false false false] }
      (Or.inl rfl) rfl rfl
  rw [h0, hevents, runEvents_cons2, h1, runEvents_cons2, h2, runEvents_append,
    h3, runEvents_cons2, runEvents_nil]
  rw [step_complete _ _ _ rfl (Or.inl rfl) rfl rfl]
  simp [controlWrite, dataWrite, sendLog, writeReq]
  omega

/-! ## Claim C7: pure read transaction -/

/-- C7: a read-only transaction of `M = (body ++ [last]).length > 0`
bytes with the device supplying `body ++ [last]` receives exactly M
bytes, arms ACK (TWEA set) for every reception except the last and NACK
(TWEA clear) exactly for the final byte — visible in the log as
`body.length` ACK arms followed by a single NACK arm — then stops and
completes; the read buffer holds the supplied bytes in order. -/
theorem C7_readTransaction (body : List Nat) (last addr mc : Nat) :
    runEvents (beginTransaction (initState mc)
        (readReq (body ++ [last]).length addr))
      ([(TWI_START, 0), (TWI_MRX_ADR_ACK, 0)] ++
        body.map (fun b => (TWI_MRX_DATA_ACK, b)) ++
        [(TWI_MRX_DATA_NACK, last)]) =
      { state := .completed
        muxPhase := .off
        bytesToSend := 0
        bytesToReceive := 0
        txCount := 0
        rxCount := (body ++ [last]).length
        completionStatus := .ok
        currentRequest := { readReq (body ++ [last]).length addr with
          readBuffer := writeBytes (fun _ => 0) 0 (body ++ [last]) }
        operation := .read
        muxCount := mc
        actions := [.control true true false,
            .data (((addr <<< 1) ||| 1) % 256),
            .control true false false] ++
          List.replicate body.length (.control true false false) ++
          [.control false false false, .control true false true] } ∧
    (∀ i, i < (body ++ [last]).length →
      (runEvents (beginTransaction (initState mc)
          (readReq (body ++ [last]).length addr))
        ([(TWI_START, 0), (TWI_MRX_ADR_ACK, 0)] ++
          body.map (fun b => (TWI_MRX_DATA_ACK, b)) ++
          [(TWI_MRX_DATA_NACK, last)])).currentRequest.readBuffer i =
        (body ++ [last]).getD i 0 % 256) := by
  have h0 : beginTransaction (initState mc)
      (readReq (body ++ [last]).length addr) =
      { state := .active, muxPhase := .off, bytesToSend := 0,
        bytesToReceive := (body ++ [last]).length,
        txCount := 0, rxCount := 0, completionStatus := .ok,
        currentRequest := readReq (body ++ [last]).length addr,
        operation := .read, muxCount := mc,
        actions := [.control true true false] } := rfl
  have hevents : ([(TWI_START, 0), (TWI_MRX_ADR_ACK, 0)] ++
        body.map (fun b => (TWI_MRX_DATA_ACK, b)) ++
        [(TWI_MRX_DATA_NACK, last)] : List (Nat × Nat)) =
      (TWI_START, 0) :: (TWI_MRX_ADR_ACK, 0) ::
        (body.map (fun b => (TWI_MRX_DATA_ACK, b)) ++
          [(TWI_MRX_DATA_NACK, last)]) := by
    simp
  have h1 : I2C_handleInterrupt
      { state := .active, muxPhase := .off, bytesToSend := 0,
        bytesToReceive := (body ++ [last]).length,
        txCount := 0, rxCount := 0, completionStatus := .ok,
        currentRequest := readReq (body ++ [last]).length addr,
        operation := .read, muxCount := mc,
        actions := [.control true true false] }
      TWI_START 0 =
      { state := .active, muxPhase := .off, bytesToSend := 0,
        bytesToReceive := (body ++ [last]).length,
        txCount := 0, rxCount := 0, completionStatus := .ok,
        currentRequest := readReq (body ++ [last]).length addr,
        operation := .read, muxCount := mc,
        actions := [.control true true false,
          .data (((addr <<< 1) ||| 1) % 256), .control true false false] } := by
    rw [step_deviceAddress _ _ _ (Or.inl rfl) (Or.inl rfl),
      if_pos (Or.inl rfl)]
    rfl
  have h2 : I2C_handleInterrupt
      { state := .active, muxPhase := .off, bytesToSend := 0,
        bytesToReceive := (body ++ [last]).length,
        txCount := 0, rxCount := 0, completionStatus := .ok,
        currentRequest := readReq (body ++ [last]).length addr,
        operation := .read, muxCount := mc,
        actions := [.control true true false,
          .data (((addr <<< 1) ||| 1) % 256), .control true false false] }
      TWI_MRX_ADR_ACK 0 =
      { state := .active, muxPhase := .off, bytesToSend := 0,
        bytesToReceive := (body ++ [last]).length,
        txCount := 0, rxCount := 0, completionStatus := .ok,
        currentRequest := readReq (body ++ [last]).length addr,
        operation := .read, muxCount := mc,
        actions := [.control true true false,
          .data (((addr <<< 1) ||| 1) % 256), .control true false false,
          .control (!body.isEmpty) false false] } := by
    rw [step_recvAdrAck]
    cases body <;> simp [controlWrite]
  have h3 := recvLoop body
      { state := .active, muxPhase := .off, bytesToSend := 0,
        bytesToReceive := (body ++ [last]).length,
        txCount := 0, rxCount := 0, completionStatus := .ok,
        currentRequest := readReq (body ++ [last]).length addr,
        operation := .read, muxCount := mc,
        actions := [.control true true false,
          .data (((addr <<< 1) ||| 1) % 256), .control true false false,
          .control (!body.isEmpty) false false] }
      (by simp)
  have hmain : runEvents (beginTransaction (initState mc)
        (readReq (body ++ [last]).length addr))
      ([(TWI_START, 0), (TWI_MRX_ADR_ACK, 0)] ++
        body.map (fun b => (TWI_MRX_DATA_ACK, b)) ++
        [(TWI_MRX_DATA_NACK, last)]) =
      { state := .completed
        muxPhase := .off
        bytesToSend := 0
        bytesToReceive := 0
        txCount := 0
        rxCount := (body ++ [last]).length
        completionStatus := .ok
        currentRequest := { readReq (body ++ [last]).length addr with
          readBuffer := writeBytes (fun _ => 0) 0 (body ++ [last]) }
        operation := .read
        muxCount := mc
        actions := [.control true true false,
            .data (((addr <<< 1) ||| 1) % 256),
            .control true false false] ++
          List.replicate body.length (.control true false false) ++
          [.control false false false, .control true false true] } := by
    rw [h0, hevents, runEvents_cons2, h1, runEvents_cons2, h2,
      runEvents_append, h3, runEvents_cons2, runEvents_nil]
    rw [step_recvLast _ _ rfl (by norm_num)]
    have harm := congrArg (· ++ [RegWrite.control true false true])
      (recvArms_closed body)
    simp only [List.cons_append, List.singleton_append, List.append_assoc] at harm
    rw [writeBytes_snoc]
    cases hbody : body with
    | nil =>
      simp_all [controlWrite, storeByte, readReq, recvArms, writeBytes]
    | cons c r =>
      simp_all [controlWrite, storeByte, readReq]
  refine ⟨hmain, ?_⟩
  intro i hi
  rw [hmain]
  simpa using writeBytes_lookup (body ++ [last]) (fun _ => 0) 0 i hi

/-! ## Claim C8: write-then-read transaction -/

/-- C8: a write-then-read transaction with `W = (w0 :: wrest).length`
bytes to send and `R = (body ++ [last]).length` bytes to read, run with
sequential ACKs, issues a repeated START (`TWSTA` without `TWSTO`, the
`.control false true false` entry between the write-phase log and the
read-direction address byte) once nothing is left to send, and never
issues a STOP between the phases: the log contains exactly one STOP
request and it is the final action. -/
theorem C8_writeThenRead (w0 : Nat) (wrest : List Nat)
    (body : List Nat) (last addr mc : Nat) :
    runEvents (beginTransaction (initState mc)
        (writeReadReq (w0 :: wrest) (body ++ [last]).length addr))
      ([(TWI_START, 0), (TWI_MTX_ADR_ACK, 0)] ++
        List.replicate (w0 :: wrest).length (TWI_MTX_DATA_ACK, 0) ++
        [(TWI_REP_START, 0), (TWI_MRX_ADR_ACK, 0)] ++
        body.map (fun b => (TWI_MRX_DATA_ACK, b)) ++
        [(TWI_MRX_DATA_NACK, last)]) =
      { state := .completed
        muxPhase := .off
        bytesToSend := 0
        bytesToReceive := 0
        txCount := (w0 :: wrest).length
        rxCount := (body ++ [last]).length
        completionStatus := .ok
        currentRequest :=
          { writeReadReq (w0 :: wrest) (body ++ [last]).length addr with
            readBuffer := writeBytes (fun _ => 0) 0 (body ++ [last]) }
        operation := .request
        muxCount := mc
        actions := [.control true true false,
            .data (((addr <<< 1) ||| 0) % 256), .control true false false] ++
          sendLog (w0 :: wrest) ++
          [.control false true false,
            .data (((addr <<< 1) ||| 1) % 256), .control true false false] ++
          List.replicate body.length (.control true false false) ++
          [.control false false false, .control true false true] } ∧
    (runEvents (beginTransaction (initState mc)
        (writeReadReq (w0 :: wrest) (body ++ [last]).length addr))
      ([(TWI_START, 0), (TWI_MTX_ADR_ACK, 0)] ++
        List.replicate (w0 :: wrest).length (TWI_MTX_DATA_ACK, 0) ++
        [(TWI_REP_START, 0), (TWI_MRX_ADR_ACK, 0)] ++
        body.map (fun b => (TWI_MRX_DATA_ACK, b)) ++
        [(TWI_MRX_DATA_NACK, last)])).actions.countP RegWrite.isStop = 1 ∧
    (runEvents (beginTransaction (initState mc)
        (writeReadReq (w0 :: wrest) (body ++ [last]).length addr))
      ([(TWI_START, 0), (TWI_MTX_ADR_ACK, 0)] ++
        List.replicate (w0 :: wrest).length (TWI_MTX_DATA_ACK, 0) ++
        [(TWI_REP_START, 0), (TWI_MRX_ADR_ACK, 0)] ++
        body.map (fun b => (TWI_MRX_DATA_ACK, b)) ++
        [(TWI_MRX_DATA_NACK, last)])).actions.getLast? =
      some (.control true false true) := by
  have h0 : beginTransaction (initState mc)
      (writeReadReq (w0 :: wrest) (body ++ [last]).length addr) =
      { state := .active, muxPhase := .off,
        bytesToSend := (w0 :: wrest).length,
        bytesToReceive := (body ++ [last]).length,
        txCount := 0, rxCount := 0, completionStatus := .ok,
        currentRequest := writeReadReq (w0 :: wrest) (body ++ [last]).length addr,
        operation := .request, muxCount := mc,
        actions := [.control true true false] } := rfl
  have hevents : ([(TWI_START, 0), (TWI_MTX_ADR_ACK, 0)] ++
        List.replicate (w0 :: wrest).length (TWI_MTX_DATA_ACK, 0) ++
        [(TWI_REP_START, 0), (TWI_MRX_ADR_ACK, 0)] ++
        body.map (fun b => (TWI_MRX_DATA_ACK, b)) ++
        [(TWI_MRX_DATA_NACK, last)] : List (Nat × Nat)) =
      (TWI_START, 0) :: (TWI_MTX_ADR_ACK, 0) ::
        (List.replicate wrest.length (TWI_MTX_DATA_ACK, 0) ++
          ((TWI_MTX_DATA_ACK, 0) :: (TWI_REP_START, 0) :: (TWI_MRX_ADR_ACK, 0) ::
            (body.map (fun b => (TWI_MRX_DATA_ACK, b)) ++
              [(TWI_MRX_DATA_NACK, last)]))) := by
    rw [List.length_cons, List.replicate_succ']
    simp
  have h1 : I2C_handleInterrupt
      { state := .active, muxPhase := .off,
        bytesToSend := (w0 :: wrest).length,
        bytesToReceive := (body ++ [last]).length,
        txCount := 0, rxCount := 0, completionStatus := .ok,
        currentRequest := writeReadReq (w0 :: wrest) (body ++ [last]).length addr,
        operation := .request, muxCount := mc,
        actions := [.control true true false] }
      TWI_START 0 =
      { state := .active, muxPhase := .off,
        bytesToSend := (w0 :: wrest).length,
        bytesToReceive := (body ++ [last]).length,
        txCount := 0, rxCount := 0, completionStatus := .ok,
        currentRequest := writeReadReq (w0 :: wrest) (body ++ [last]).length addr,
        operation := .request, muxCount := mc,
        actions := [.control true true false,
          .data (((addr <<< 1) ||| 0) % 256), .control true false false] } := by
    rw [step_deviceAddress _ _ _ (Or.inl rfl) (Or.inl rfl),
      if_neg (by simp [writeReadReq])]
    rfl
  have h2 : I2C_handleInterrupt
      { state := .active, muxPhase := .off,
        bytesToSend := (w0 :: wrest).length,
        bytesToReceive := (body ++ [last]).length,
        txCount := 0, rxCount := 0, completionStatus := .ok,
        currentRequest := writeReadReq (w0 :: wrest) (body ++ [last]).length addr,
        operation := .request, muxCount := mc,
        actions := [.control true true false,
          .data (((addr <<< 1) ||| 0) % 256), .control true false false] }
      TWI_MTX_ADR_ACK 0 =
      { state := .active, muxPhase := .off,
        bytesToSend := wrest.length,
        bytesToReceive := (body ++ [last]).length,
        txCount := 1, rxCount := 0, completionStatus := .ok,
        currentRequest := writeReadReq (w0 :: wrest) (body ++ [last]).length addr,
        operation := .request, muxCount := mc,
        actions := [.control true true false,
          .data (((addr <<< 1) ||| 0) % 256), .control true false false,
          .data (w0 % 256), .control false false false] } := by
    rw [step_sendByte _ _ _ (Or.inl rfl) (Or.inr rfl) (by simp [writeReadReq])]
    rfl
  have h3 := sendLoop wrest
      { state := .active, muxPhase := .off,
        bytesToSend := wrest.length,
        bytesToReceive := (body ++ [last]).length,
        txCount := 1, rxCount := 0, completionStatus := .ok,
        currentRequest := writeReadReq (w0 :: wrest) (body ++ [last]).length addr,
        operation := .request, muxCount := mc,
        actions := [.control true true false,
          .data (((addr <<< 1) ||| 0) % 256), .control true false false,
          .data (w0 % 256), .control false false false] }
      (Or.inl rfl) rfl rfl
  have h4 : I2C_handleInterrupt
      { state := .active, muxPhase := .off,
        bytesToSend := 0,
        bytesToReceive := (body ++ [last]).length,
        txCount := 1 + wrest.length, rxCount := 0, completionStatus := .ok,
        currentRequest := writeReadReq (w0 :: wrest) (body ++ [last]).length addr,
        operation := .request, muxCount := mc,
        actions := [.control true true false,
          .data (((addr <<< 1) ||| 0) % 256), .control true false false,
          .data (w0 % 256), .control false false false] ++ sendLog wrest }
      TWI_MTX_DATA_ACK 0 =
      { state := .active, muxPhase := .off,
        bytesToSend := 0,
        bytesToReceive := (body ++ [last]).length,
        txCount := 1 + wrest.length, rxCount := 0, completionStatus := .ok,
        currentRequest := writeReadReq (w0 :: wrest) (body ++ [last]).length addr,
        operation := .request, muxCount := mc,
        actions := ([.control true true false,
          .data (((addr <<< 1) ||| 0) % 256), .control true false false,
          .data (w0 % 256), .control false false false] ++ sendLog wrest) ++
          [.control false true false] } := by
    rw [step_repStart _ _ _ (Or.inl rfl) (Or.inl rfl) rfl (by simp)]
    rfl
  have h5 : I2C_handleInterrupt
      { state := .active, muxPhase := .off,
        bytesToSend := 0,
        bytesToReceive := (body ++ [last]).length,
        txCount := 1 + wrest.length, rxCount := 0, completionStatus := .ok,
        currentRequest := writeReadReq (w0 :: wrest) (body ++ [last]).length addr,
        operation := .request, muxCount := mc,
        actions := ([.control true true false,
          .data (((addr <<< 1) ||| 0) % 256), .control true false false,
          .data (w0 % 256), .control false false false] ++ sendLog wrest) ++
          [.control false true false] }
      TWI_REP_START 0 =
      { state := .active, muxPhase := .off,
        bytesToSend := 0,
        bytesToReceive := (body ++ [last]).length,
        txCount := 1 + wrest.length, rxCount := 0, completionStatus := .ok,
        currentRequest := writeReadReq (w0 :: wrest) (body ++ [last]).length addr,
        operation := .request, muxCount := mc,
        actions := (([.control true true false,
          .data (((addr <<< 1) ||| 0) % 256), .control true false false,
          .data (w0 % 256), .control false false false] ++ sendLog wrest) ++
          [.control false true false]) ++
          [.data (((addr <<< 1) ||| 1) % 256), .control true false false] } := by
    rw [step_deviceAddress _ _ _ (Or.inl rfl) (Or.inr rfl),
      if_pos (Or.inr ⟨rfl, rfl⟩)]
    simp [controlWrite, dataWrite, writeReadReq]
  have h6 : I2C_handleInterrupt
      { state := .active, muxPhase := .off,
        bytesToSend := 0,
        bytesToReceive := (body ++ [last]).length,
        txCount := 1 + wrest.length, rxCount := 0, completionStatus := .ok,
        currentRequest := writeReadReq (w0 :: wrest) (body ++ [last]).length addr,
        operation := .request, muxCount := mc,
        actions := (([.control true true false,
          .data (((addr <<< 1) ||| 0) % 256), .control true false false,
          .data (w0 % 256), .control false false false] ++ sendLog wrest) ++
          [.control false true false]) ++
          [.data (((addr <<< 1) ||| 1) % 256), .control true false false] }
      TWI_MRX_ADR_ACK 0 =
      { state := .active, muxPhase := .off,
        bytesToSend := 0,
        bytesToReceive := (body ++ [last]).length,
        txCount := 1 + wrest.length, rxCount := 0, completionStatus := .ok,
        currentRequest := writeReadReq (w0 :: wrest) (body ++ [last]).length addr,
        operation := .request, muxCount := mc,
        actions := ((([.control true true false,
          .data (((addr <<< 1) ||| 0) % 256), .control true false false,
          .data (w0 % 256), .control false false false] ++ sendLog wrest) ++
          [.control false true false]) ++
          [.data (((addr <<< 1) ||| 1) % 256), .control true false false]) ++
          [.control (!body.isEmpty) false false] } := by
    rw [step_recvAdrAck]
    cases body <;> simp [controlWrite]
  have h7 := recvLoop body
      { state := .active, muxPhase := .off,
        bytesToSend := 0,
        bytesToReceive := (body ++ [last]).length,
        txCount := 1 + wrest.length, rxCount := 0, completionStatus := .ok,
        currentRequest := writeReadReq (w0 :: wrest) (body ++ [last]).length addr,
        operation := .request, muxCount := mc,
        actions := ((([.control true true false,
          .data (((addr <<< 1) ||| 0) % 256), .control true false false,
          .data (w0 % 256), .control false false false] ++ sendLog wrest) ++
          [.control false true false]) ++
          [.data (((addr <<< 1) ||| 1) % 256), .control true false false]) ++
          [.control (!body.isEmpty) false false] }
      (by simp)
  have hmain : runEvents (beginTransaction (initState mc)
        (writeReadReq (w0 :: wrest) (body ++ [last]).length addr))
      ([(TWI_START, 0), (TWI_MTX_ADR_ACK, 0)] ++
        List.replicate (w0 :: wrest).length (TWI_MTX_DATA_ACK, 0) ++
        [(TWI_REP_START, 0), (TWI_MRX_ADR_ACK, 0)] ++
        body.map (fun b => (TWI_MRX_DATA_ACK, b)) ++
        [(TWI_MRX_DATA_NACK, last)]) =
      { state := .completed
        muxPhase := .off
        bytesToSend := 0
        bytesToReceive := 0
        txCount := (w0 :: wrest).length
        rxCount := (body ++ [last]).length
        completionStatus := .ok
        currentRequest :=
          { writeReadReq (w0 :: wrest) (body ++ [last]).length addr with
            readBuffer := writeBytes (fun _ => 0) 0 (body ++ [last]) }
        operation := .request
        muxCount := mc
        actions := [.control true true false,
            .data (((addr <<< 1) ||| 0) % 256), .control true false false] ++
          sendLog (w0 :: wrest) ++
          [.control false true false,
            .data (((addr <<< 1) ||| 1) % 256), .control true false false] ++
          List.replicate body.length (.control true false false) ++
          [.control false false false, .control true false true] } := by
    rw [h0, hevents, runEvents_cons2, h1, runEvents_cons2, h2,
      runEvents_append, h3, runEvents_cons2, h4, runEvents_cons2, h5,
      runEvents_cons2, h6, runEvents_append, h7, runEvents_cons2,
      runEvents_nil]
    rw [step_recvLast _ _ rfl (by norm_num)]
    have harm := congrArg (· ++ [RegWrite.control true false true])
      (recvArms_closed body)
    simp only [List.cons_append, List.singleton_append, List.append_assoc] at harm
    rw [writeBytes_snoc]
    cases hbody : body with
    | nil =>
      simp_all [controlWrite, storeByte, writeReadReq, recvArms, writeBytes,
        sendLog]
      omega
    | cons c r =>
      simp_all [controlWrite, storeByte, writeReadReq, sendLog]
      omega
  refine ⟨hmain, ?_, ?_⟩
  · rw [hmain]
    simp only [List.countP_append, sendLog_noStop, replicateAck_noStop]
    rfl
  · rw [hmain]
    rw [show ([.control true true false,
        .data (((addr <<< 1) ||| 0) % 256), .control true false false] ++
      sendLog (w0 :: wrest) ++
      [.control false true false,
        .data (((addr <<< 1) ||| 1) % 256), .control true false false] ++
      List.replicate body.length (.control true false false) ++
      [.control false false false, .control true false true]
      : List RegWrite) =
      ([.control true true false,
        .data (((addr <<< 1) ||| 0) % 256), .control true false false] ++
      sendLog (w0 :: wrest) ++
      [.control false true false,
        .data (((addr <<< 1) ||| 1) % 256), .control true false false] ++
      List.replicate body.length (.control true false false) ++
      [.control false false false]) ++ [.control true false true] from by
        simp]
    exact List.getLast?_concat _

/-! ## Claim C9: mux-only transaction (device address 0) -/

/-- C9: a multiplexer-routed transaction whose device address is the
reserved value 0 completes during the Prolog phase: START, multiplexer
address, sub-bus mask, then — on the mask's ACK — exactly one STOP over
the whole transaction, state Completed, and the machine never enters
the Passthrough or Epilog phase. -/
theorem C9_muxOnlyTransaction (m mc : Nat) (sb : I2CSubBus) :
    runEvents (beginTransaction (initState mc) (muxOnlyReq m sb))
      [(TWI_START, 0), (TWI_MTX_ADR_ACK, 0), (TWI_MTX_DATA_ACK, 0)] =
      { state := .completed
        muxPhase := .off
        bytesToSend := 0
        bytesToReceive := 0
        txCount := 0
        rxCount := 0
        completionStatus := .ok
        currentRequest := muxOnlyReq m sb
        operation := .send
        muxCount := mc
        actions := [.control true true false,
          .data ((((I2C_MUX_BASE_ADDRESS + m) <<< 1) ||| 0) % 256),
          .control false false false,
          .data (subBusMask sb % 256),
          .control false false false,
          .data (0xff % 256),
          .control false false true] } ∧
    (runEvents (beginTransaction (initState mc) (muxOnlyReq m sb))
      [(TWI_START, 0), (TWI_MTX_ADR_ACK, 0), (TWI_MTX_DATA_ACK, 0)]
      ).actions.countP RegWrite.isStop = 1 ∧
    (traceStates (beginTransaction (initState mc) (muxOnlyReq m sb))
      [(TWI_START, 0), (TWI_MTX_ADR_ACK, 0), (TWI_MTX_DATA_ACK, 0)]
      ).map (·.muxPhase) = [.prolog, .prolog, .prolog, .off] ∧
    (∀ t ∈ traceStates (beginTransaction (initState mc) (muxOnlyReq m sb))
      [(TWI_START, 0), (TWI_MTX_ADR_ACK, 0), (TWI_MTX_DATA_ACK, 0)],
      t.muxPhase ≠ .passthru ∧ t.muxPhase ≠ .epilog) := by
  refine ⟨rfl, rfl, rfl, ?_⟩
  intro t ht
  have hmp : t.muxPhase ∈
      (traceStates (beginTransaction (initState mc) (muxOnlyReq m sb))
        [(TWI_START, 0), (TWI_MTX_ADR_ACK, 0), (TWI_MTX_DATA_ACK, 0)]
        ).map (·.muxPhase) := List.mem_map_of_mem _ ht
  rw [show (traceStates (beginTransaction (initState mc) (muxOnlyReq m sb))
      [(TWI_START, 0), (TWI_MTX_ADR_ACK, 0), (TWI_MTX_DATA_ACK, 0)]
      ).map (·.muxPhase) = [.prolog, .prolog, .prolog, .off] from rfl] at hmp
  simp only [List.mem_cons, List.not_mem_nil, or_false] at hmp
  rcases hmp with h | h | h | h <;> rw [h] <;> exact ⟨by simp, by simp⟩

/-! ## Claim C5: NACK during Passthrough -/

/-- C5: a NACK-received status (SLA+W, SLA+R or transmitted-data NACK)
while `muxPhase = Passthrough` records NegativeAcknowledge and still
drives the full Epilog deselect sequence — STOP-then-START, the
multiplexer address, the all-zero mask — before completing, and
NegativeAcknowledge is still the recorded status at Completed. -/
theorem C5_nackDuringPassthru (s : MState) (m twsr d : Nat)
    (hph : s.muxPhase = .passthru)
    (hm : s.currentRequest.muxNumber = some m)
    (ht : twsr = TWI_MTX_ADR_NACK ∨ twsr = TWI_MRX_ADR_NACK ∨
      twsr = TWI_MTX_DATA_NACK) :
    (runEvents s [(twsr, d), (TWI_REP_START, 0), (TWI_MTX_ADR_ACK, 0),
        (TWI_MTX_DATA_ACK, 0)]).state = .completed ∧
    (runEvents s [(twsr, d), (TWI_REP_START, 0), (TWI_MTX_ADR_ACK, 0),
        (TWI_MTX_DATA_ACK, 0)]).completionStatus = .negativeAcknowledge ∧
    (runEvents s [(twsr, d), (TWI_REP_START, 0), (TWI_MTX_ADR_ACK, 0),
        (TWI_MTX_DATA_ACK, 0)]).muxPhase = .off ∧
    (runEvents s [(twsr, d), (TWI_REP_START, 0), (TWI_MTX_ADR_ACK, 0),
        (TWI_MTX_DATA_ACK, 0)]).actions = s.actions ++
      [.control false true true,
       .data ((((I2C_MUX_BASE_ADDRESS + m) <<< 1) ||| 0) % 256),
       .control false false false,
       .data (0x00 % 256),
       .control false false false,
       .data (0xff % 256),
       .control false false true] := by
  have h1 := step_muxNackToEpilog s twsr d hph ht
  have h2 : I2C_handleInterrupt
      { controlWrite { s with completionStatus := .negativeAcknowledge }
          false true true with muxPhase := .epilog }
      TWI_REP_START 0 =
      controlWrite
        (dataWrite
          { controlWrite { s with completionStatus := .negativeAcknowledge }
              false true true with muxPhase := .epilog }
          (((I2C_MUX_BASE_ADDRESS + muxNumberVal s.currentRequest.muxNumber)
            <<< 1) ||| 0))
        false false false :=
    step_muxAddress _ TWI_REP_START 0 (Or.inr rfl) (Or.inr rfl)
  have h3 : I2C_handleInterrupt
      (controlWrite
        (dataWrite
          { controlWrite { s with completionStatus := .negativeAcknowledge }
              false true true with muxPhase := .epilog }
          (((I2C_MUX_BASE_ADDRESS + muxNumberVal s.currentRequest.muxNumber)
            <<< 1) ||| 0))
        false false false)
      TWI_MTX_ADR_ACK 0 =
      controlWrite
        (dataWrite
          (controlWrite
            (dataWrite
              { controlWrite { s with completionStatus := .negativeAcknowledge }
                  false true true with muxPhase := .epilog }
              (((I2C_MUX_BASE_ADDRESS + muxNumberVal s.currentRequest.muxNumber)
                <<< 1) ||| 0))
            false false false)
          0x00)
        false false false :=
    step_muxEpilogMask _ 0 rfl
  have h4 := step_muxEpilogDone
      (controlWrite
        (dataWrite
          (controlWrite
            (dataWrite
              { controlWrite { s with completionStatus := .negativeAcknowledge }
                  false true true with muxPhase := .epilog }
              (((I2C_MUX_BASE_ADDRESS + muxNumberVal s.currentRequest.muxNumber)
                <<< 1) ||| 0))
            false false false)
          0x00)
        false false false)
      0 rfl
  rw [runEvents_cons2, h1, runEvents_cons2, h2, runEvents_cons2, h3,
    runEvents_cons2, h4, runEvents_nil]
  refine ⟨rfl, rfl, rfl, ?_⟩
  simp [controlWrite, dataWrite, hm, muxNumberVal]

/-! ## Claim C4: Epilog policy by multiplexer count -/

/-- C4, counterexample: with exactly one configured multiplexer, a
Prolog-then-Passthrough transaction for device address 5 whose SLA+W is
NACKed during Passthrough DOES enter the Epilog phase — the NACK
handler advances to Epilog without consulting `_muxCount` — so "never
enters the Epilog phase when `_muxCount == 1`" fails for runs that are
not ACK-driven. -/
theorem C4_counterexample :
    (initState 1).muxCount = 1 ∧
    (runEvents (beginTransaction (initState 1)
        (muxWriteReq [7] 5 0 .subBusAll))
      [(TWI_START, 0), (TWI_MTX_ADR_ACK, 0), (TWI_MTX_DATA_ACK, 0),
       (TWI_REP_START, 0), (TWI_MTX_ADR_NACK, 0)]).muxPhase = .epilog :=
  ⟨rfl, rfl⟩

/-- C4: for ACK-driven multiplexer-routed transactions (write and read)
with a non-zero device address: with exactly one configured multiplexer
(`_muxCount = 1`) the machine completes directly from Passthrough and
never enters the Epilog phase at any point of the run; with more than
one multiplexer it always enters Epilog (`muxPhase = .epilog` when the
device transaction finishes) and the continued run transmits the
all-zero sub-bus mask (`.data (0x00 % 256)`) followed by the final STOP
before the state becomes Completed. -/
theorem C4_epilogPolicy (w0 : Nat) (wrest body : List Nat)
    (last addr m mc : Nat) (sb : I2CSubBus) (haddr : addr ≠ 0) :
    (mc = 1 →
      ((runEvents (beginTransaction (initState mc)
          (muxWriteReq (w0 :: wrest) addr m sb))
          (muxWriteEvents (w0 :: wrest).length)).state = .completed ∧
        (runEvents (beginTransaction (initState mc)
          (muxWriteReq (w0 :: wrest) addr m sb))
          (muxWriteEvents (w0 :: wrest).length)).muxPhase = .off ∧
        (runEvents (beginTransaction (initState mc)
          (muxWriteReq (w0 :: wrest) addr m sb))
          (muxWriteEvents (w0 :: wrest).length)).completionStatus = .ok ∧
        (∀ t ∈ traceStates (beginTransaction (initState mc)
            (muxWriteReq (w0 :: wrest) addr m sb))
            (muxWriteEvents (w0 :: wrest).length),
          t.muxPhase ≠ .epilog)) ∧
      ((runEvents (beginTransaction (initState mc)
          (muxReadReq (body ++ [last]).length addr m sb))
          (muxReadEvents body last)).state = .completed ∧
        (runEvents (beginTransaction (initState mc)
          (muxReadReq (body ++ [last]).length addr m sb))
          (muxReadEvents body last)).muxPhase = .off ∧
        (runEvents (beginTransaction (initState mc)
          (muxReadReq (body ++ [last]).length addr m sb))
          (muxReadEvents body last)).completionStatus = .ok ∧
        (∀ t ∈ traceStates (beginTransaction (initState mc)
            (muxReadReq (body ++ [last]).length addr m sb))
            (muxReadEvents body last),
          t.muxPhase ≠ .epilog))) ∧
    (1 < mc →
      ((runEvents (beginTransaction (initState mc)
          (muxWriteReq (w0 :: wrest) addr m sb))
          (muxWriteEvents (w0 :: wrest).length)).muxPhase = .epilog ∧
        (runEvents (beginTransaction (initState mc)
          (muxWriteReq (w0 :: wrest) addr m sb))
          (muxWriteEvents (w0 :: wrest).length ++ epilogEvents)).state
          = .completed ∧
        (runEvents (beginTransaction (initState mc)
          (muxWriteReq (w0 :: wrest) addr m sb))
          (muxWriteEvents (w0 :: wrest).length ++ epilogEvents)).muxPhase
          = .off ∧
        (runEvents (beginTransaction (initState mc)
          (muxWriteReq (w0 :: wrest) addr m sb))
          (muxWriteEvents (w0 :: wrest).length ++ epilogEvents)).completionStatus
          = .ok ∧
        (runEvents (beginTransaction (initState mc)
          (muxWriteReq (w0 :: wrest) addr m sb))
          (muxWriteEvents (w0 :: wrest).length ++ epilogEvents)).actions =
          (runEvents (beginTransaction (initState mc)
            (muxWriteReq (w0 :: wrest) addr m sb))
            (muxWriteEvents (w0 :: wrest).length)).actions ++
          [.data ((((I2C_MUX_BASE_ADDRESS + m) <<< 1) ||| 0) % 256),
           .control false false false,
           .data (0x00 % 256),
           .control false false false,
           .data (0xff % 256),
           .control false false true]) ∧
      ((runEvents (beginTransaction (initState mc)
          (muxReadReq (body ++ [last]).length addr m sb))
          (muxReadEvents body last)).muxPhase = .epilog ∧
        (runEvents (beginTransaction (initState mc)
          (muxReadReq (body ++ [last]).length addr m sb))
          (muxReadEvents body last ++ epilogEvents)).state = .completed ∧
        (runEvents (beginTransaction (initState mc)
          (muxReadReq (body ++ [last]).length addr m sb))
          (muxReadEvents body last ++ epilogEvents)).muxPhase = .off ∧
        (runEvents (beginTransaction (initState mc)
          (muxReadReq (body ++ [last]).length addr m sb))
          (muxReadEvents body last ++ epilogEvents)).completionStatus
          = .ok ∧
        (runEvents (beginTransaction (initState mc)
          (muxReadReq (body ++ [last]).length addr m sb))
          (muxReadEvents body last ++ epilogEvents)).actions =
          (runEvents (beginTransaction (initState mc)
            (muxReadReq (body ++ [last]).length addr m sb))
            (muxReadEvents body last)).actions ++
          [.data ((((I2C_MUX_BASE_ADDRESS + m) <<< 1) ||| 0) % 256),
           .control false false false,
           .data (0x00 % 256),
           .control false false false,
           .data (0xff % 256),
           .control false false true])) := by
  have h0w : beginTransaction (initState mc) (muxWriteReq (w0 :: wrest) addr m sb) =
      { state := .active, muxPhase := .prolog,
        bytesToSend := (w0 :: wrest).length, bytesToReceive := 0,
        txCount := 0, rxCount := 0, completionStatus := .ok,
        currentRequest := muxWriteReq (w0 :: wrest) addr m sb,
        operation := .send, muxCount := mc,
        actions := [.control true true false] } := rfl
  have hevw : muxWriteEvents (w0 :: wrest).length =
      (TWI_START, 0) :: (TWI_MTX_ADR_ACK, 0) :: (TWI_MTX_DATA_ACK, 0) ::
        (TWI_REP_START, 0) :: (TWI_MTX_ADR_ACK, 0) ::
        (List.replicate wrest.length (TWI_MTX_DATA_ACK, 0) ++
          [(TWI_MTX_DATA_ACK, 0)]) := by
    unfold muxWriteEvents
    rw [List.length_cons, List.replicate_succ']
    rfl
  have h1w : I2C_handleInterrupt
      { state := .active, muxPhase := .prolog,
        bytesToSend := (w0 :: wrest).length, bytesToReceive := 0,
        txCount := 0, rxCount := 0, completionStatus := .ok,
        currentRequest := muxWriteReq (w0 :: wrest) addr m sb,
        operation := .send, muxCount := mc,
        actions := [.control true true false] }
      TWI_START 0 =
      { state := .active, muxPhase := .prolog,
        bytesToSend := (w0 :: wrest).length, bytesToReceive := 0,
        txCount := 0, rxCount := 0, completionStatus := .ok,
        currentRequest := muxWriteReq (w0 :: wrest) addr m sb,
        operation := .send, muxCount := mc,
        actions := [.control true true false,
          .data ((((I2C_MUX_BASE_ADDRESS + m) <<< 1) ||| 0) % 256),
          .control false false false] } := by
    rw [step_muxAddress _ _ _ (Or.inl rfl) (Or.inl rfl)]
    rfl
  have h2w : I2C_handleInterrupt
      { state := .active, muxPhase := .prolog,
        bytesToSend := (w0 :: wrest).length, bytesToReceive := 0,
        txCount := 0, rxCount := 0, completionStatus := .ok,
        currentRequest := muxWriteReq (w0 :: wrest) addr m sb,
        operation := .send, muxCount := mc,
        actions := [.control true true false,
          .data ((((I2C_MUX_BASE_ADDRESS + m) <<< 1) ||| 0) % 256),
          .control false false false] }
      TWI_MTX_ADR_ACK 0 =
      { state := .active, muxPhase := .prolog,
        bytesToSend := (w0 :: wrest).length, bytesToReceive := 0,
        txCount := 0, rxCount := 0, completionStatus := .ok,
        currentRequest := muxWriteReq (w0 :: wrest) addr m sb,
        operation := .send, muxCount := mc,
        actions := [.control true true false,
          .data ((((I2C_MUX_BASE_ADDRESS + m) <<< 1) ||| 0) % 256),
          .control false false false,
          .data (subBusMask sb % 256),
          .control false false false] } := by
    rw [step_muxMask _ _ rfl]
    rfl
  have h3w : I2C_handleInterrupt
      { state := .active, muxPhase := .prolog,
        bytesToSend := (w0 :: wrest).length, bytesToReceive := 0,
        txCount := 0, rxCount := 0, completionStatus := .ok,
        currentRequest := muxWriteReq (w0 :: wrest) addr m sb,
        operation := .send, muxCount := mc,
        actions := [.control true true false,
          .data ((((I2C_MUX_BASE_ADDRESS + m) <<< 1) ||| 0) % 256),
          .control false false false,
          .data (subBusMask sb % 256),
          .control false false false] }
      TWI_MTX_DATA_ACK 0 =
      { state := .active, muxPhase := .passthru,
        bytesToSend := (w0 :: wrest).length, bytesToReceive := 0,
        txCount := 0, rxCount := 0, completionStatus := .ok,
        currentRequest := muxWriteReq (w0 :: wrest) addr m sb,
        operation := .send, muxCount := mc,
        actions := [.control true true false,
          .data ((((I2C_MUX_BASE_ADDRESS + m) <<< 1) ||| 0) % 256),
          .control false false false,
          .data (subBusMask sb % 256),
          .control false false false,
          .control false true true] } := by
    rw [step_muxPrologToPassthru _ _ rfl haddr]
    rfl
  have h4w : I2C_handleInterrupt
      { state := .active, muxPhase := .passthru,
        bytesToSend := (w0 :: wrest).length, bytesToReceive := 0,
        txCount := 0, rxCount := 0, completionStatus := .ok,
        currentRequest := muxWriteReq (w0 :: wrest) addr m sb,
        operation := .send, muxCount := mc,
        actions := [.control true true false,
          .data ((((I2C_MUX_BASE_ADDRESS + m) <<< 1) ||| 0) % 256),
          .control false false false,
          .data (subBusMask sb % 256),
          .control false false false,
          .control false true true] }
      TWI_REP_START 0 =
      { state := .active, muxPhase := .passthru,
        bytesToSend := (w0 :: wrest).length, bytesToReceive := 0,
        txCount := 0, rxCount := 0, completionStatus := .ok,
        currentRequest := muxWriteReq (w0 :: wrest) addr m sb,
        operation := .send, muxCount := mc,
        actions := [.control true true false,
          .data ((((I2C_MUX_BASE_ADDRESS + m) <<< 1) ||| 0) % 256),
          .control false false false,
          .data (subBusMask sb % 256),
          .control false false false,
          .control false true true,
          .data (((addr <<< 1) ||| 0) % 256),
          .control true false false] } := by
    rw [step_deviceAddress _ _ _ (Or.inr rfl) (Or.inr rfl),
      if_neg (by simp [muxWriteReq])]
    rfl
  have h5w : I2C_handleInterrupt
      { state := .active, muxPhase := .passthru,
        bytesToSend := (w0 :: wrest).length, bytesToReceive := 0,
        txCount := 0, rxCount := 0, completionStatus := .ok,
        currentRequest := muxWriteReq (w0 :: wrest) addr m sb,
        operation := .send, muxCount := mc,
        actions := [.control true true false,
          .data ((((I2C_MUX_BASE_ADDRESS + m) <<< 1) ||| 0) % 256),
          .control false false false,
          .data (subBusMask sb % 256),
          .control false false false,
          .control false true true,
          .data (((addr <<< 1) ||| 0) % 256),
          .control true false false] }
      TWI_MTX_ADR_ACK 0 =
      { state := .active, muxPhase := .passthru,
        bytesToSend := wrest.length, bytesToReceive := 0,
        txCount := 1, rxCount := 0, completionStatus := .ok,
        currentRequest := muxWriteReq (w0 :: wrest) addr m sb,
        operation := .send, muxCount := mc,
        actions := [.control true true false,
          .data ((((I2C_MUX_BASE_ADDRESS + m) <<< 1) ||| 0) % 256),
          .control false false false,
          .data (subBusMask sb % 256),
          .control false false false,
          .control false true true,
          .data (((addr <<< 1) ||| 0) % 256),
          .control true false false,
          .data (w0 % 256),
          .control false false false] } := by
    rw [step_sendByte _ _ _ (Or.inr rfl) (Or.inr rfl) (by simp [muxWriteReq])]
    rfl
  have h6w := sendLoop wrest
      { state := .active, muxPhase := .passthru,
        bytesToSend := wrest.length, bytesToReceive := 0,
        txCount := 1, rxCount := 0, completionStatus := .ok,
        currentRequest := muxWriteReq (w0 :: wrest) addr m sb,
        operation := .send, muxCount := mc,
        actions := [.control true true false,
          .data ((((I2C_MUX_BASE_ADDRESS + m) <<< 1) ||| 0) % 256),
          .control false false false,
          .data (subBusMask sb % 256),
          .control false false false,
          .control false true true,
          .data (((addr <<< 1) ||| 0) % 256),
          .control true false false,
          .data (w0 % 256),
          .control false false false] }
      (Or.inr rfl) rfl rfl
  have h0r : beginTransaction (initState mc)
      (muxReadReq (body ++ [last]).length addr m sb) =
      { state := .active, muxPhase := .prolog,
        bytesToSend := 0, bytesToReceive := (body ++ [last]).length,
        txCount := 0, rxCount := 0, completionStatus := .ok,
        currentRequest := muxReadReq (body ++ [last]).length addr m sb,
        operation := .read, muxCount := mc,
        actions := [.control true true false] } := rfl
  have hevr : muxReadEvents body last =
      (TWI_START, 0) :: (TWI_MTX_ADR_ACK, 0) :: (TWI_MTX_DATA_ACK, 0) ::
        (TWI_REP_START, 0) :: (TWI_MRX_ADR_ACK, 0) ::
        (body.map (fun b => (TWI_MRX_DATA_ACK, b)) ++
          [(TWI_MRX_DATA_NACK, last)]) := by
    unfold muxReadEvents
    simp
  have h1r : I2C_handleInterrupt
      { state := .active, muxPhase := .prolog,
        bytesToSend := 0, bytesToReceive := (body ++ [last]).length,
        txCount := 0, rxCount := 0, completionStatus := .ok,
        currentRequest := muxReadReq (body ++ [last]).length addr m sb,
        operation := .read, muxCount := mc,
        actions := [.control true true false] }
      TWI_START 0 =
      { state := .active, muxPhase := .prolog,
        bytesToSend := 0, bytesToReceive := (body ++ [last]).length,
        txCount := 0, rxCount := 0, completionStatus := .ok,
        currentRequest := muxReadReq (body ++ [last]).length addr m sb,
        operation := .read, muxCount := mc,
        actions := [.control true true false,
          .data ((((I2C_MUX_BASE_ADDRESS + m) <<< 1) ||| 0) % 256),
          .control false false false] } := by
    rw [step_muxAddress _ _ _ (Or.inl rfl) (Or.inl rfl)]
    rfl
  have h2r : I2C_handleInterrupt
      { state := .active, muxPhase := .prolog,
        bytesToSend := 0, bytesToReceive := (body ++ [last]).length,
        txCount := 0, rxCount := 0, completionStatus := .ok,
        currentRequest := muxReadReq (body ++ [last]).length addr m sb,
        operation := .read, muxCount := mc,
        actions := [.control true true false,
          .data ((((I2C_MUX_BASE_ADDRESS + m) <<< 1) ||| 0) % 256),
          .control false false false] }
      TWI_MTX_ADR_ACK 0 =
      { state := .active, muxPhase := .prolog,
        bytesToSend := 0, bytesToReceive := (body ++ [last]).length,
        txCount := 0, rxCount := 0, completionStatus := .ok,
        currentRequest := muxReadReq (body ++ [last]).length addr m sb,
        operation := .read, muxCount := mc,
        actions := [.control true true false,
          .data ((((I2C_MUX_BASE_ADDRESS + m) <<< 1) ||| 0) % 256),
          .control false false false,
          .data (subBusMask sb % 256),
          .control false false false] } := by
    rw [step_muxMask _ _ rfl]
    rfl
  have h3r : I2C_handleInterrupt
      { state := .active, muxPhase := .prolog,
        bytesToSend := 0, bytesToReceive := (body ++ [last]).length,
        txCount := 0, rxCount := 0, completionStatus := .ok,
        currentRequest := muxReadReq (body ++ [last]).length addr m sb,
        operation := .read, muxCount := mc,
        actions := [.control true true false,
          .data ((((I2C_MUX_BASE_ADDRESS + m) <<< 1) ||| 0) % 256),
          .control false false false,
          .data (subBusMask sb % 256),
          .control false false false] }
      TWI_MTX_DATA_ACK 0 =
      { state := .active, muxPhase := .passthru,
        bytesToSend := 0, bytesToReceive := (body ++ [last]).length,
        txCount := 0, rxCount := 0, completionStatus := .ok,
        currentRequest := muxReadReq (body ++ [last]).length addr m sb,
        operation := .read, muxCount := mc,
        actions := [.control true true false,
          .data ((((I2C_MUX_BASE_ADDRESS + m) <<< 1) ||| 0) % 256),
          .control false false false,
          .data (subBusMask sb % 256),
          .control false false false,
          .control false true true] } := by
    rw [step_muxPrologToPassthru _ _ rfl haddr]
    rfl
  have h4r : I2C_handleInterrupt
      { state := .active, muxPhase := .passthru,
        bytesToSend := 0, bytesToReceive := (body ++ [last]).length,
        txCount := 0, rxCount := 0, completionStatus := .ok,
        currentRequest := muxReadReq (body ++ [last]).length addr m sb,
        operation := .read, muxCount := mc,
        actions := [.control true true false,
          .data ((((I2C_MUX_BASE_ADDRESS + m) <<< 1) ||| 0) % 256),
          .control false false false,
          .data (subBusMask sb % 256),
          .control false false false,
          .control false true true] }
      TWI_REP_START 0 =
      { state := .active, muxPhase := .passthru,
        bytesToSend := 0, bytesToReceive := (body ++ [last]).length,
        txCount := 0, rxCount := 0, completionStatus := .ok,
        currentRequest := muxReadReq (body ++ [last]).length addr m sb,
        operation := .read, muxCount := mc,
        actions := [.control true true false,
          .data ((((I2C_MUX_BASE_ADDRESS + m) <<< 1) ||| 0) % 256),
          .control false false false,
          .data (subBusMask sb % 256),
          .control false false false,
          .control false true true,
          .data (((addr <<< 1) ||| 1) % 256),
          .control true false false] } := by
    rw [step_deviceAddress _ _ _ (Or.inr rfl) (Or.inr rfl),
      if_pos (Or.inl rfl)]
    rfl
  have h5r : I2C_handleInterrupt
      { state := .active, muxPhase := .passthru,
        bytesToSend := 0, bytesToReceive := (body ++ [last]).length,
        txCount := 0, rxCount := 0, completionStatus := .ok,
        currentRequest := muxReadReq (body ++ [last]).length addr m sb,
        operation := .read, muxCount := mc,
        actions := [.control true true false,
          .data ((((I2C_MUX_BASE_ADDRESS + m) <<< 1) ||| 0) % 256),
          .control false false false,
          .data (subBusMask sb % 256),
          .control false false false,
          .control false true true,
          .data (((addr <<< 1) ||| 1) % 256),
          .control true false false] }
      TWI_MRX_ADR_ACK 0 =
      { state := .active, muxPhase := .passthru,
        bytesToSend := 0, bytesToReceive := (body ++ [last]).length,
        txCount := 0, rxCount := 0, completionStatus := .ok,
        currentRequest := muxReadReq (body ++ [last]).length addr m sb,
        operation := .read, muxCount := mc,
        actions := [.control true true false,
          .data ((((I2C_MUX_BASE_ADDRESS + m) <<< 1) ||| 0) % 256),
          .control false false false,
          .data (subBusMask sb % 256),
          .control false false false,
          .control false true true,
          .data (((addr <<< 1) ||| 1) % 256),
          .control true false false,
          .control (!body.isEmpty) false false] } := by
    rw [step_recvAdrAck]
    cases body <;> simp [controlWrite]
  have h6r := recvLoop body
      { state := .active, muxPhase := .passthru,
        bytesToSend := 0, bytesToReceive := (body ++ [last]).length,
        txCount := 0, rxCount := 0, completionStatus := .ok,
        currentRequest := muxReadReq (body ++ [last]).length addr m sb,
        operation := .read, muxCount := mc,
        actions := [.control true true false,
          .data ((((I2C_MUX_BASE_ADDRESS + m) <<< 1) ||| 0) % 256),
          .control false false false,
          .data (subBusMask sb % 256),
          .control false false false,
          .control false true true,
          .data (((addr <<< 1) ||| 1) % 256),
          .control true false false,
          .control (!body.isEmpty) false false] }
      (by simp)
  have hmemw : ∀ e ∈ muxWriteEvents (w0 :: wrest).length,
      e.1 ≠ TWI_MTX_ADR_NACK ∧ e.1 ≠ TWI_MRX_ADR_NACK ∧
      e.1 ≠ TWI_MTX_DATA_NACK := by
    intro e he
    unfold muxWriteEvents at he
    simp only [List.mem_append, List.mem_cons, List.mem_replicate,
      List.not_mem_nil, or_false] at he
    rcases he with (rfl | rfl | rfl | rfl | rfl) | ⟨-, rfl⟩ <;>
      exact ⟨by decide, by decide, by decide⟩
  have hmemr : ∀ e ∈ muxReadEvents body last,
      e.1 ≠ TWI_MTX_ADR_NACK ∧ e.1 ≠ TWI_MRX_ADR_NACK ∧
      e.1 ≠ TWI_MTX_DATA_NACK := by
    intro e he
    unfold muxReadEvents at he
    simp only [List.mem_append, List.mem_cons, List.mem_map,
      List.not_mem_nil, or_false] at he
    rcases he with ((rfl | rfl | rfl | rfl | rfl) | ⟨b, -, rfl⟩) | rfl <;>
      refine ⟨?_, ?_, ?_⟩ <;>
      simp [TWI_START, TWI_REP_START, TWI_MTX_ADR_ACK, TWI_MTX_DATA_ACK,
        TWI_MRX_ADR_ACK, TWI_MRX_DATA_ACK, TWI_MRX_DATA_NACK,
        TWI_MTX_ADR_NACK, TWI_MRX_ADR_NACK, TWI_MTX_DATA_NACK]
  refine ⟨?_, ?_⟩
  · -- a single multiplexer: the Epilog is skipped
    intro hmc1
    refine ⟨⟨?_, ?_, ?_, ?_⟩, ⟨?_, ?_, ?_, ?_⟩⟩
    · rw [h0w, hevw, runEvents_cons2, h1w, runEvents_cons2, h2w,
        runEvents_cons2, h3w, runEvents_cons2, h4w, runEvents_cons2, h5w,
        runEvents_append, h6w, runEvents_cons2, runEvents_nil,
        step_muxPassthruDone _ _ rfl rfl rfl (show ¬ mc > 1 by omega)]
    · rw [h0w, hevw, runEvents_cons2, h1w, runEvents_cons2, h2w,
        runEvents_cons2, h3w, runEvents_cons2, h4w, runEvents_cons2, h5w,
        runEvents_append, h6w, runEvents_cons2, runEvents_nil,
        step_muxPassthruDone _ _ rfl rfl rfl (show ¬ mc > 1 by omega)]
    · rw [h0w, hevw, runEvents_cons2, h1w, runEvents_cons2, h2w,
        runEvents_cons2, h3w, runEvents_cons2, h4w, runEvents_cons2, h5w,
        runEvents_append, h6w, runEvents_cons2, runEvents_nil,
        step_muxPassthruDone _ _ rfl rfl rfl (show ¬ mc > 1 by omega)]
      simp [controlWrite]
    · refine trace_noEpilog _ _ ?_ ?_ hmemw
      · rw [h0w]
        show mc ≤ 1
        omega
      · rw [h0w]
        simp
    · rw [h0r, hevr, runEvents_cons2, h1r, runEvents_cons2, h2r,
        runEvents_cons2, h3r, runEvents_cons2, h4r, runEvents_cons2, h5r,
        runEvents_append, h6r, runEvents_cons2, runEvents_nil,
        step_muxRecvLastDone _ _ rfl (show (0:Nat) < 1 by norm_num) (show ¬ mc > 1 by omega)]
    · rw [h0r, hevr, runEvents_cons2, h1r, runEvents_cons2, h2r,
        runEvents_cons2, h3r, runEvents_cons2, h4r, runEvents_cons2, h5r,
        runEvents_append, h6r, runEvents_cons2, runEvents_nil,
        step_muxRecvLastDone _ _ rfl (show (0:Nat) < 1 by norm_num) (show ¬ mc > 1 by omega)]
    · rw [h0r, hevr, runEvents_cons2, h1r, runEvents_cons2, h2r,
        runEvents_cons2, h3r, runEvents_cons2, h4r, runEvents_cons2, h5r,
        runEvents_append, h6r, runEvents_cons2, runEvents_nil,
        step_muxRecvLastDone _ _ rfl (show (0:Nat) < 1 by norm_num) (show ¬ mc > 1 by omega)]
      simp [controlWrite, storeByte]
    · refine trace_noEpilog _ _ ?_ ?_ hmemr
      · rw [h0r]
        show mc ≤ 1
        omega
      · rw [h0r]
        simp
  · -- more than one multiplexer: the Epilog always runs
    intro hmc2
    have hW2 : (runEvents (beginTransaction (initState mc)
          (muxWriteReq (w0 :: wrest) addr m sb))
          (muxWriteEvents (w0 :: wrest).length)).muxPhase = .epilog ∧
        (runEvents (beginTransaction (initState mc)
          (muxWriteReq (w0 :: wrest) addr m sb))
          (muxWriteEvents (w0 :: wrest).length)).completionStatus = .ok ∧
        (runEvents (beginTransaction (initState mc)
          (muxWriteReq (w0 :: wrest) addr m sb))
          (muxWriteEvents (w0 :: wrest).length)).currentRequest.muxNumber
          = some m := by
      rw [h0w, hevw, runEvents_cons2, h1w, runEvents_cons2, h2w,
        runEvents_cons2, h3w, runEvents_cons2, h4w, runEvents_cons2, h5w,
        runEvents_append, h6w, runEvents_cons2, runEvents_nil,
        step_muxPassthruToEpilog _ _ rfl rfl rfl hmc2]
      refine ⟨?_, ?_, ?_⟩ <;> simp [controlWrite, muxWriteReq]
    obtain ⟨hwph, hwok, hwm⟩ := hW2
    obtain ⟨hwA, hwB, hwC, hwD⟩ := epilogTail _ m hwph hwm
    have hR2 : (runEvents (beginTransaction (initState mc)
          (muxReadReq (body ++ [last]).length addr m sb))
          (muxReadEvents body last)).muxPhase = .epilog ∧
        (runEvents (beginTransaction (initState mc)
          (muxReadReq (body ++ [last]).length addr m sb))
          (muxReadEvents body last)).completionStatus = .ok ∧
        (runEvents (beginTransaction (initState mc)
          (muxReadReq (body ++ [last]).length addr m sb))
          (muxReadEvents body last)).currentRequest.muxNumber = some m := by
      rw [h0r, hevr, runEvents_cons2, h1r, runEvents_cons2, h2r,
        runEvents_cons2, h3r, runEvents_cons2, h4r, runEvents_cons2, h5r,
        runEvents_append, h6r, runEvents_cons2, runEvents_nil,
        step_muxRecvLastToEpilog _ _ rfl (show (0:Nat) < 1 by norm_num) hmc2]
      refine ⟨?_, ?_, ?_⟩ <;> simp [controlWrite, storeByte, muxReadReq]
    obtain ⟨hrph, hrok, hrm⟩ := hR2
    obtain ⟨hrA, hrB, hrC, hrD⟩ := epilogTail _ m hrph hrm
    refine ⟨⟨hwph, ?_, ?_, ?_, ?_⟩, ⟨hrph, ?_, ?_, ?_, ?_⟩⟩
    · rw [runEvents_append]; exact hwA
    · rw [runEvents_append]; exact hwB
    · rw [runEvents_append]; exact hwC.trans hwok
    · rw [runEvents_append]; exact hwD
    · rw [runEvents_append]; exact hrA
    · rw [runEvents_append]; exact hrB
    · rw [runEvents_append]; exact hrC.trans hrok
    · rw [runEvents_append]; exact hrD

/-! ## Claim C2: the muxPhase invariant -/

theorem MuxPhase.val_le_three : ∀ p : MuxPhase, p.val ≤ 3 := by
  intro p
  cases p <;> simp [MuxPhase.val]

/-- One step preserves "a non-Off phase implies the current descriptor
names a multiplexer". -/
theorem step_muxNumber_inv (s : MState) (twsr d : Nat)
    (ih : s.muxPhase ≠ .off → s.currentRequest.muxNumber ≠ none) :
    (I2C_handleInterrupt s twsr d).muxPhase ≠ .off →
    (I2C_handleInterrupt s twsr d).currentRequest.muxNumber ≠ none := by
  cases hmux : muxDispatch s twsr d with
  | none =>
    simp only [I2C_handleInterrupt, hmux]
    unfold mainDispatch I2C_sendStart
    dsimp only
    split_ifs <;>
      first
      | exact fun h => ih (by simpa [controlWrite, dataWrite, storeByte] using h)
      | (rcases hm : s.currentRequest.muxNumber with _ | n <;>
           simp [hm, controlWrite, dataWrite, storeByte])
  | some s1 =>
    simp only [I2C_handleInterrupt, hmux]
    have hoff : s.muxPhase ≠ .off := by
      intro hh
      unfold muxDispatch at hmux
      rw [hh] at hmux
      simp [MuxPhase.val] at hmux
    have hmn := ih hoff
    unfold muxDispatch at hmux
    dsimp only at hmux
    split_ifs at hmux <;>
      first
      | exact Option.noConfusion hmux
      | (injection hmux with hmux
         subst hmux
         simp_all [controlWrite, dataWrite, storeByte])

/-- C2, counterexample: a bus-error status during the Prolog phase takes
the state machine straight to Completed through the shared error
handler, which never resets `muxPhase`: the machine ends with
`state = Completed` while `muxPhase = Prolog ≠ Off`, violating the
claimed invariant. -/
theorem C2_counterexample :
    (I2C_handleInterrupt
      (beginTransaction (initState 1) (muxWriteReq [7] 5 0 .subBusAll))
      TWI_BUS_ERROR 0).state = .completed ∧
    (I2C_handleInterrupt
      (beginTransaction (initState 1) (muxWriteReq [7] 5 0 .subBusAll))
      TWI_BUS_ERROR 0).muxPhase = .prolog ∧
    (MuxPhase.prolog ≠ MuxPhase.off) :=
  ⟨rfl, rfl, by decide⟩

/-- C2, amended: in every reachable state, `muxPhase ≠ Off` still
implies that the current descriptor's address carries a multiplexer
number, and every completion decided inside the multiplexer dispatch
resets `muxPhase` to Off; however, completions taken by the shared
device dispatch (bus error, and NACKs outside Passthrough) can leave
`muxPhase ≠ Off` with `state = Completed`, so the original
"`muxPhase ≠ Off` only while `state == Active`" does not hold. -/
theorem C2_amended :
    (∀ (mc : Nat) (s : MState), Reach mc s →
      s.muxPhase ≠ .off → s.currentRequest.muxNumber ≠ none) ∧
    (∀ (s : MState) (twsr d : Nat) (s1 : MState),
      muxDispatch s twsr d = some s1 → s.state ≠ .completed →
      s1.state = .completed → s1.muxPhase = .off) := by
  constructor
  · intro mc s h
    induction h with
    | init => intro h; simp [initState] at h
    | begin req h ihp =>
      unfold beginTransaction I2C_sendStart
      dsimp only
      rcases hm : req.muxNumber with _ | n <;>
        simp [hm, controlWrite]
    | step twsr d h ihp => exact step_muxNumber_inv _ twsr d ihp
  · intro s twsr d s1 hmux hact hcomp
    unfold muxDispatch at hmux
    dsimp only at hmux
    split_ifs at hmux <;>
      first
      | exact Option.noConfusion hmux
      | (injection hmux with hmux
         subst hmux
         first
         | rfl
         | (exfalso
            rename_i hgt
            have hle := MuxPhase.val_le_three s.muxPhase
            have hgt3 : 3 < s.muxPhase.val := hgt
            omega)
         | (exfalso
            simp_all [controlWrite, dataWrite, storeByte]))

/-! ## Claim C10: read-buffer bounds -/

/-- One event preserves the receive invariant: the counters satisfy
`rxCount + bytesToReceive = readLen`, the current request's `readLen`
is fixed, and the read buffer beyond `readLen` is untouched — every
store site is guarded by `bytesToReceive > 0`, so each store lands at
an index below `readLen`. -/
theorem step_rxInv (q : I2CRB) (s : MState) (twsr d : Nat)
    (h1 : s.rxCount + s.bytesToReceive = s.currentRequest.readLen)
    (h2 : s.currentRequest.readLen = q.readLen)
    (h3 : ∀ i, q.readLen ≤ i →
      s.currentRequest.readBuffer i = q.readBuffer i) :
    (I2C_handleInterrupt s twsr d).rxCount +
      (I2C_handleInterrupt s twsr d).bytesToReceive =
      (I2C_handleInterrupt s twsr d).currentRequest.readLen ∧
    (I2C_handleInterrupt s twsr d).currentRequest.readLen = q.readLen ∧
    (∀ i, q.readLen ≤ i →
      (I2C_handleInterrupt s twsr d).currentRequest.readBuffer i =
        q.readBuffer i) := by
  cases hmux : muxDispatch s twsr d with
  | none =>
    simp only [I2C_handleInterrupt, hmux]
    unfold mainDispatch I2C_sendStart
    dsimp only
    split_ifs <;>
      first
      | exact ⟨h1, h2, h3⟩
      | (refine ⟨?_, ?_, ?_⟩
         · simp [controlWrite, dataWrite, storeByte]
           omega
         · exact h2
         · intro i hi
           show Function.update s.currentRequest.readBuffer s.rxCount
             (d % 256) i = q.readBuffer i
           rw [Function.update_noteq (show i ≠ s.rxCount by omega)]
           exact h3 i hi)
      | (rcases hm : s.currentRequest.muxNumber with _ | n <;>
           refine ⟨?_, ?_, ?_⟩ <;>
           first
           | exact h3
           | simp [hm, controlWrite, h2])
  | some s1 =>
    simp only [I2C_handleInterrupt, hmux]
    unfold muxDispatch at hmux
    dsimp only at hmux
    split_ifs at hmux <;>
      first
      | exact Option.noConfusion hmux
      | (injection hmux with hmux
         subst hmux
         first
         | exact ⟨h1, h2, h3⟩
         | (refine ⟨?_, ?_, ?_⟩
            · simp [controlWrite, dataWrite, storeByte]
              omega
            · exact h2
            · intro i hi
              show Function.update s.currentRequest.readBuffer s.rxCount
                (d % 256) i = q.readBuffer i
              rw [Function.update_noteq (show i ≠ s.rxCount by omega)]
              exact h3 i hi))

/-- The receive invariant holds along any event sequence. -/
theorem run_rxInv (q : I2CRB) :
    ∀ (evts : List (Nat × Nat)) (s : MState),
      s.rxCount + s.bytesToReceive = s.currentRequest.readLen →
      s.currentRequest.readLen = q.readLen →
      (∀ i, q.readLen ≤ i →
        s.currentRequest.readBuffer i = q.readBuffer i) →
      (runEvents s evts).rxCount + (runEvents s evts).bytesToReceive =
        (runEvents s evts).currentRequest.readLen ∧
      (runEvents s evts).currentRequest.readLen = q.readLen ∧
      (∀ i, q.readLen ≤ i →
        (runEvents s evts).currentRequest.readBuffer i = q.readBuffer i) := by
  intro evts
  induction evts with
  | nil => intro s hh1 hh2 hh3; exact ⟨hh1, hh2, hh3⟩
  | cons e es ih =>
    intro s hh1 hh2 hh3
    obtain ⟨g1, g2, g3⟩ := step_rxInv q s e.1 e.2 hh1 hh2 hh3
    exact ih _ g1 g2 g3

/-- C10: starting any transaction and handling any sequence of hardware
events, `rxCount` never exceeds the descriptor's `readLen`, and the
handler never writes a read-buffer entry at or beyond `readLen` — every
store is guarded by `bytesToReceive > 0`. -/
theorem C10_readBufferSafety (mc : Nat) (req : I2CRB)
    (evts : List (Nat × Nat)) :
    (runEvents (beginTransaction (initState mc) req) evts).rxCount ≤
      req.readLen ∧
    (∀ i, req.readLen ≤ i →
      (runEvents (beginTransaction (initState mc) req)
        evts).currentRequest.readBuffer i = req.readBuffer i) := by
  have hb : (beginTransaction (initState mc) req).rxCount = 0 ∧
      (beginTransaction (initState mc) req).bytesToReceive = req.readLen ∧
      (beginTransaction (initState mc) req).currentRequest = req := by
    unfold beginTransaction I2C_sendStart
    rcases hm : req.muxNumber with _ | n <;>
      simp [hm, controlWrite, dataWrite]
  obtain ⟨hb1, hb2, hb3⟩ := hb
  have hinv := run_rxInv req evts (beginTransaction (initState mc) req)
    (by rw [hb1, hb2, hb3]; omega)
    (by rw [hb3])
    (fun i _ => by rw [hb3])
  obtain ⟨g1, g2, g3⟩ := hinv
  refine ⟨?_, g3⟩
  omega

/-! ## Witnesses -/

/-- Witness for C2: a freshly started multiplexer transaction is
reachable and in the Prolog phase, so its descriptor names a
multiplexer; and the concrete Epilog-completion step of the mux
dispatch resets the phase to Off. -/
theorem C2_amended_witness :
    (beginTransaction (initState 1)
      (muxWriteReq [7] 5 0 .subBusAll)).currentRequest.muxNumber ≠ none ∧
    ({ controlWrite
        (dataWrite
          { state := .active, muxPhase := .epilog, bytesToSend := 0,
            bytesToReceive := 0, txCount := 0, rxCount := 0,
            completionStatus := .ok,
            currentRequest := muxWriteReq [7] 5 0 .subBusAll,
            operation := .send, muxCount := 2, actions := [] }
          0xff)
        false false true with
        state := DriverState.completed, muxPhase := MuxPhase.off }
      : MState).muxPhase = .off :=
  ⟨C2_amended.1 1 _ (Reach.begin _ Reach.init) (by simp [beginTransaction,
      I2C_sendStart, muxWriteReq, controlWrite]),
   C2_amended.2
     { state := .active, muxPhase := .epilog, bytesToSend := 0,
       bytesToReceive := 0, txCount := 0, rxCount := 0,
       completionStatus := .ok,
       currentRequest := muxWriteReq [7] 5 0 .subBusAll,
       operation := .send, muxCount := 2, actions := [] }
     TWI_MTX_DATA_ACK 0 _ rfl (by simp) rfl⟩

/-- Witness for C3: at 16 MHz a 100 kHz request is programmed at a rate
not slower than requested (the maximality instance at the exact divisor
72), and an unreachable 16 bits/s request clamps to (255, 3). -/
theorem C3_amended_witness :
    100000 * (16 + 2 * effectiveDivisor (I2C_setClock 16000000 100000)) ≤
      16000000 ∧
    72 * 4 ^ 0 ≤ effectiveDivisor (I2C_setClock 16000000 100000) ∧
    I2C_setClock 16000000 16 = (255, 3) :=
  ⟨(C3_amended 16000000 100000).2.2.2.2.2 (by norm_num) (by norm_num)
      (by norm_num),
   (C3_amended 16000000 100000).2.2.2.1 72 0 (by norm_num) (by norm_num)
      (by norm_num [rawDivisor]),
   (C3_amended 16000000 16).2.2.2.2.1 (by norm_num [rawDivisor])⟩

/-- Witness for C4: with a single multiplexer a one-byte routed write
completes, and with two multiplexers the same run ends in the Epilog
phase. -/
theorem C4_epilogPolicy_witness :
    (runEvents (beginTransaction (initState 1)
      (muxWriteReq [11] 5 0 .subBusAll))
      (muxWriteEvents [(11 : Nat)].length)).state = .completed ∧
    (runEvents (beginTransaction (initState 2)
      (muxWriteReq [11] 5 0 .subBusAll))
      (muxWriteEvents [(11 : Nat)].length)).muxPhase = .epilog :=
  ⟨((C4_epilogPolicy 11 [] [] 9 5 0 1 .subBusAll (by norm_num)).1 rfl).1.1,
   ((C4_epilogPolicy 11 [] [] 9 5 0 2 .subBusAll (by norm_num)).2
      (by norm_num)).1.1⟩

/-- Witness for C5: a concrete SLA+W NACK in the Passthrough phase ends
Completed with the NegativeAcknowledge status preserved. -/
theorem C5_nackDuringPassthru_witness :
    (runEvents
      { state := .active, muxPhase := .passthru, bytesToSend := 0,
        bytesToReceive := 0, txCount := 0, rxCount := 0,
        completionStatus := .ok,
        currentRequest := muxWriteReq [7] 5 0 .subBusAll,
        operation := .send, muxCount := 2, actions := [] }
      [(TWI_MTX_ADR_NACK, 0), (TWI_REP_START, 0), (TWI_MTX_ADR_ACK, 0),
        (TWI_MTX_DATA_ACK, 0)]).completionStatus = .negativeAcknowledge ∧
    (runEvents
      { state := .active, muxPhase := .passthru, bytesToSend := 0,
        bytesToReceive := 0, txCount := 0, rxCount := 0,
        completionStatus := .ok,
        currentRequest := muxWriteReq [7] 5 0 .subBusAll,
        operation := .send, muxCount := 2, actions := [] }
      [(TWI_MTX_ADR_NACK, 0), (TWI_REP_START, 0), (TWI_MTX_ADR_ACK, 0),
        (TWI_MTX_DATA_ACK, 0)]).state = .completed :=
  ⟨(C5_nackDuringPassthru _ 0 TWI_MTX_ADR_NACK 0 rfl rfl (Or.inl rfl)).2.1,
   (C5_nackDuringPassthru _ 0 TWI_MTX_ADR_NACK 0 rfl rfl (Or.inl rfl)).1⟩

/-- Witness for C7: reading three bytes 7, 8, 9 stores the first byte at
read-buffer position 0. -/
theorem C7_readTransaction_witness :
    (runEvents (beginTransaction (initState 1)
        (readReq ([7, 8] ++ [9]).length 5))
      ([(TWI_START, 0), (TWI_MRX_ADR_ACK, 0)] ++
        [7, 8].map (fun b => (TWI_MRX_DATA_ACK, b)) ++
        [(TWI_MRX_DATA_NACK, 9)])).currentRequest.readBuffer 0 =
      ([7, 8] ++ [9]).getD 0 0 % 256 :=
  (C7_readTransaction [7, 8] 9 5 1).2 0 (by norm_num)

/-- Witness for C9: the first trace state of a mux-only transaction is
not in the Passthrough phase. -/
theorem C9_muxOnlyTransaction_witness :
    (beginTransaction (initState 1)
      (muxOnlyReq 0 .subBusAll)).muxPhase ≠ .passthru :=
  ((C9_muxOnlyTransaction 0 1 .subBusAll).2.2.2
    (beginTransaction (initState 1) (muxOnlyReq 0 .subBusAll))
    (List.mem_cons_self _ _)).1

/-- Witness for C10: after receiving one byte of a two-byte read, the
read buffer at the out-of-range index 5 is untouched. -/
theorem C10_readBufferSafety_witness :
    (runEvents (beginTransaction (initState 1) (readReq 2 5))
      [(TWI_MRX_DATA_ACK, 7)]).rxCount ≤ (readReq 2 5).readLen ∧
    (runEvents (beginTransaction (initState 1) (readReq 2 5))
      [(TWI_MRX_DATA_ACK, 7)]).currentRequest.readBuffer 5 =
      (readReq 2 5).readBuffer 5 :=
  ⟨(C10_readBufferSafety 1 (readReq 2 5) [(TWI_MRX_DATA_ACK, 7)]).1,
   (C10_readBufferSafety 1 (readReq 2 5) [(TWI_MRX_DATA_ACK, 7)]).2 5
     (by norm_num [readReq])⟩

end I2CAVR
